import Mathlib

/-!
Shallow embedding of the GitHub API access layer of the repo-dashboard
backend (`services/github.ts`): TTL cache, rate-limit tracker, authenticated
request executor, paginator, and the per-resource normalizers.

JavaScript `Date.now()` timestamps are passed explicitly as an `Int`
millisecond clock. The network is an oracle `String → HttpResponse T`
mapping a resolved URL to a response whose body is already decoded to the
expected shape (`body = none` models a JSON decode failure). Machine numbers
(`number` in TypeScript) are modelled as `Int`; loop fuel makes the
paginator's `while (true)` loop total (`none` = fuel exhausted, which never
happens for the finite upstreams considered in the theorems).
-/

/-- CACHE_TTL_MS = 5 * 60 * 1000 from the source (5 minutes). -/
def CACHE_TTL_MS : Int := 5 * 60 * 1000

/-- CacheEntry from the source: stored data plus its expiry timestamp. -/
structure CacheEntry (T : Type) where
  data : T
  expiresAt : Int
deriving DecidableEq

/-- The backing `Map` of the `Cache` class, as an association list. -/
abbrev CacheStore (T : Type) : Type := List (String × CacheEntry T)

/-- Map.get: first entry with the given key. -/
def storeFind {T : Type} (store : CacheStore T) (key : String) :
    Option (CacheEntry T) :=
  (store.find? (fun p => p.1 == key)).map (fun p => p.2)

/-- Map.delete: remove the entry with the given key. -/
def storeErase {T : Type} (store : CacheStore T) (key : String) :
    CacheStore T :=
  store.filter (fun p => !(p.1 == key))

/-- Map.set: replace in place when the key is present, else append. -/
def storeInsert {T : Type} (store : CacheStore T) (key : String)
    (e : CacheEntry T) : CacheStore T :=
  if store.any (fun p => p.1 == key) then
    store.map (fun p => if p.1 == key then (key, e) else p)
  else
    store ++ [(key, e)]

/-- Cache.get from the source: absent key gives null; an entry with
`now > expiresAt` is deleted (lazy expiry) and reported absent; otherwise
the stored data is returned and the store is untouched. -/
def Cache.get {T : Type} (now : Int) (store : CacheStore T) (key : String) :
    Option T × CacheStore T :=
  match storeFind store key with
  | none => (none, store)
  | some entry =>
    if now > entry.expiresAt then (none, storeErase store key)
    else (some entry.data, store)

/-- Cache.set from the source: store with expiry `now + CACHE_TTL_MS`. -/
def Cache.set {T : Type} (now : Int) (store : CacheStore T) (key : String)
    (data : T) : CacheStore T :=
  storeInsert store key { data := data, expiresAt := now + CACHE_TTL_MS }

/-- RateLimitInfo from the source (`remaining`, `reset`, `limit`). -/
structure RateLimitInfo where
  remaining : Int
  reset : Int
  limit : Int
deriving DecidableEq

/-- A decoded upstream HTTP response. A rate-limit header is `some n` when
the header string is present (and non-empty, hence truthy in JS) with parsed
integer value `n`; `body = none` models a body that fails JSON decoding,
and `errorMessage` models a parsed error body carrying a `message` field
(used only when `ok = false`). -/
structure HttpResponse (T : Type) where
  ok : Bool
  statusMsg : String
  errorMessage : Option String
  hdrRemaining : Option Int
  hdrReset : Option Int
  hdrLimit : Option Int
  body : Option T
deriving DecidableEq

/-- Error kinds thrown by the request executor: the pre-flight rate-limit
gate (carrying the wait in milliseconds), a non-success upstream response
(carrying the constructed message), or a JSON decode failure. -/
inductive ReqError where
  | rateLimited (waitMs : Int)
  | upstream (msg : String)
  | decode
deriving DecidableEq

/-- Executor state threaded through calls: the process-wide mutable
`rateLimitInfo`, plus an instrumentation counter of network calls issued. -/
structure ReqState where
  rateLimit : RateLimitInfo
  calls : Nat
deriving DecidableEq

/-- The fixed API base `https://api.github.com`. -/
def baseUrl : String := "https://api.github.com"

/-- Character-level prefix test, extensionally equal to the byte-level
`String.startsWith` of the runtime (which is defined through UTF-8 byte
positions and does not reduce definitionally). -/
def charsLeadWith : List Char → List Char → Bool
  | [], _ => true
  | _ :: _, [] => false
  | c :: cs, d :: ds => c == d && charsLeadWith cs ds

/-- String version of the prefix test (`endpoint.startsWith pre`). -/
def strLeadsWith (s pre : String) : Bool := charsLeadWith pre.data s.data

/-- Character-level version of `String.contains` (`endpoint.includes(c)`). -/
def strHasChar (s : String) (c : Char) : Bool := s.data.any (fun d => d == c)

/-- URL resolution in `request`: absolute endpoints pass through, relative
ones are prefixed with the base URL. -/
def resolveUrl (endpoint : String) : String :=
  if strLeadsWith endpoint "http" then endpoint else baseUrl ++ endpoint

/-- The three `if (header) rateLimitInfo.x = parseInt(header)` updates after
each response; the reset header is epoch seconds, stored as milliseconds. -/
def updateRateLimit {T : Type} (info : RateLimitInfo) (resp : HttpResponse T) :
    RateLimitInfo :=
  let info1 := match resp.hdrRemaining with
    | some r => { info with remaining := r }
    | none => info
  let info2 := match resp.hdrReset with
    | some r => { info1 with reset := r * 1000 }
    | none => info1
  match resp.hdrLimit with
  | some l => { info2 with limit := l }
  | none => info2

/-- The part of GitHubService.request after the pre-flight gate: issue the
network call, unconditionally update the rate-limit tracker from whatever
rate-limit headers are present (even on error responses), then either build
the upstream error message from the parsed error body, decode the JSON
body, or fail with a decode error. -/
def requestNetwork {T : Type} (net : String → HttpResponse T)
    (endpoint : String) (s : ReqState) : Except ReqError T × ReqState :=
  let resp := net (resolveUrl endpoint)
  let s2 : ReqState :=
    { rateLimit := updateRateLimit s.rateLimit resp, calls := s.calls + 1 }
  if !resp.ok then
    let message := match resp.errorMessage with
      | some m => "GitHub API error: " ++ m
      | none => "GitHub API error: " ++ resp.statusMsg
    (.error (.upstream message), s2)
  else
    match resp.body with
    | some b => (.ok b, s2)
    | none => (.error .decode, s2)

/-- GitHubService.request: pre-flight rate-limit gate (fail fast when
`remaining ≤ 0` and the reset time is still strictly in the future, without
touching the network), otherwise proceed to the network call. -/
def request {T : Type} (net : String → HttpResponse T) (now : Int)
    (endpoint : String) (s : ReqState) : Except ReqError T × ReqState :=
  if s.rateLimit.remaining ≤ 0 then
    let waitTime := s.rateLimit.reset - now
    if waitTime > 0 then
      (.error (.rateLimited waitTime), s)
    else
      requestNetwork net endpoint s
  else
    requestNetwork net endpoint s

/-- URL construction inside the pagination loop: append or merge the
`per_page` and `page` query parameters. -/
def pageUrl (endpoint : String) (perPage page : Nat) : String :=
  let separator := if strHasChar endpoint '?' then "&" else "?"
  endpoint ++ separator ++ "per_page=" ++ toString perPage ++ "&page=" ++
    toString page

/-- The `while (true)` loop of GitHubService.fetchAllPages, made total with
fuel (`none` = fuel exhausted). Each iteration requests the next page,
appends its items to the accumulator, stops when a page has fewer items
than `perPage`, and otherwise continues with `page + 1`. A request failure
propagates immediately, discarding the accumulator. -/
def fetchAllPagesAux {T : Type} (net : String → HttpResponse (List T))
    (now : Int) (endpoint : String) (perPage : Nat) :
    Nat → Nat → List T → ReqState →
    Option (Except ReqError (List T) × ReqState)
  | 0, _, _, _ => none
  | fuel + 1, page, results, s =>
    match request net now (pageUrl endpoint perPage page) s with
    | (.error e, s2) => some (.error e, s2)
    | (.ok data, s2) =>
      let results2 := results ++ data
      if data.length < perPage then some (.ok results2, s2)
      else fetchAllPagesAux net now endpoint perPage fuel (page + 1) results2 s2

/-- GitHubService.fetchAllPages: start at page 1 with the fixed page size
`perPage = 100` and an empty accumulator. -/
def fetchAllPages {T : Type} (net : String → HttpResponse (List T))
    (now : Int) (endpoint : String) (fuel : Nat) (s : ReqState) :
    Option (Except ReqError (List T) × ReqState) :=
  fetchAllPagesAux net now endpoint 100 fuel 1 [] s

/-- A well-formed finite upstream page sequence: at least one page, every
page before the last is full (exactly 100 items) and the last is short
(fewer than 100 items, possibly zero). -/
def goodPages {T : Type} : List (List T) → Bool
  | [] => false
  | [l] => decide (l.length < 100)
  | l :: l2 :: rest => decide (l.length = 100) && goodPages (l2 :: rest)

/-- A successful upstream page response carrying no rate-limit headers. -/
def okPage {T : Type} (l : List T) : HttpResponse (List T) :=
  { ok := true, statusMsg := "200 OK", errorMessage := none,
    hdrRemaining := none, hdrReset := none, hdrLimit := none,
    body := some l }

/-- Raw GitHub user shape (`login`, `avatar_url`). -/
structure GitHubUser where
  login : String
  avatar_url : String
deriving DecidableEq

/-- Raw GitHub label shape (`name`, `color`). -/
structure GitHubLabel where
  name : String
  color : String
deriving DecidableEq

/-- Raw GitHub repository shape. -/
structure GitHubRepository where
  id : Int
  name : String
  full_name : String
  description : Option String
  html_url : String
  «private» : Bool
  default_branch : String
deriving DecidableEq

/-- Raw GitHub issue shape. The optional `pull_request?: unknown` marker is
modelled as a Bool: `true` when the field is present (it is an object when
present, hence truthy in the source's `!issue.pull_request` filter). -/
structure GitHubIssue where
  id : Int
  number : Int
  title : String
  html_url : String
  state : String
  created_at : String
  updated_at : String
  user : Option GitHubUser
  labels : List GitHubLabel
  assignees : List GitHubUser
  pull_request : Bool
deriving DecidableEq

/-- Raw GitHub pull-request shape; `merged_at : string | null` is an
`Option String`. -/
structure GitHubPullRequest where
  id : Int
  number : Int
  title : String
  html_url : String
  state : String
  created_at : String
  updated_at : String
  user : Option GitHubUser
  labels : List GitHubLabel
  assignees : List GitHubUser
  draft : Bool
  merged_at : Option String
deriving DecidableEq

/-- The `commit` field of a raw branch record (`sha`, `url`). -/
structure GitHubBranchCommit where
  sha : String
  url : String
deriving DecidableEq

/-- Raw GitHub branch shape. -/
structure GitHubBranch where
  name : String
  commit : GitHubBranchCommit
  «protected» : Bool
deriving DecidableEq

/-- The nested `commit.author` / `commit.committer` signature of a raw
commit record. -/
structure GitHubCommitSignature where
  name : String
  email : String
  date : String
deriving DecidableEq

/-- The nested `commit` payload of a raw commit record. -/
structure GitHubCommitDetail where
  author : GitHubCommitSignature
  committer : GitHubCommitSignature
  message : String
deriving DecidableEq

/-- Raw GitHub commit shape returned by the per-commit endpoint. -/
structure GitHubCommit where
  sha : String
  commit : GitHubCommitDetail
  author : Option GitHubUser
  committer : Option GitHubUser
deriving DecidableEq

/-- Normalized label (shared types). -/
structure Label where
  name : String
  color : String
deriving DecidableEq

/-- Normalized assignee (shared types). -/
structure Assignee where
  login : String
  avatarUrl : String
deriving DecidableEq

/-- Normalized repository (shared types). -/
structure Repository where
  id : Int
  name : String
  fullName : String
  description : Option String
  url : String
  isPrivate : Bool
  defaultBranch : String
deriving DecidableEq

/-- NormalizedItem (shared types): the unified issue / pr / branch shape.
The `type` field holds one of the literal strings "issue", "pr", "branch";
the optional `state?`, `number?`, `isDraft?` fields are Options. -/
structure NormalizedItem where
  id : String
  type : String
  repository : String
  repositoryFullName : String
  title : String
  author : String
  authorAvatarUrl : Option String
  labels : List Label
  assignees : List Assignee
  createdAt : String
  updatedAt : String
  url : String
  state : Option String
  number : Option Int
  isDraft : Option Bool
deriving DecidableEq

/-- JavaScript truthiness of a `string | null` value: `null` and the empty
string are falsy, every other string is truthy. -/
def strTruthy : Option String → Bool
  | none => false
  | some s => !(s == "")

/-- The repository mapping inside getOrganizationRepos. -/
def normalizeRepo (repo : GitHubRepository) : Repository :=
  { id := repo.id
    name := repo.name
    fullName := repo.full_name
    description := repo.description
    url := repo.html_url
    isPrivate := repo.«private»
    defaultBranch := repo.default_branch }

/-- The issue mapping inside getRepositoryIssues (applied after the
pull-request filter). `issue.user?.login ?? 'unknown'` and
`issue.user?.avatar_url ?? null` are nullish coalescing, not truthiness. -/
def normalizeIssue (owner repo : String) (issue : GitHubIssue) :
    NormalizedItem :=
  { id := "issue-" ++ owner ++ "-" ++ repo ++ "-" ++ toString issue.id
    type := "issue"
    repository := repo
    repositoryFullName := owner ++ "/" ++ repo
    title := issue.title
    author := match issue.user with
      | some u => u.login
      | none => "unknown"
    authorAvatarUrl := match issue.user with
      | some u => some u.avatar_url
      | none => none
    labels := issue.labels.map (fun l => { name := l.name, color := l.color })
    assignees := issue.assignees.map
      (fun a => { login := a.login, avatarUrl := a.avatar_url })
    createdAt := issue.created_at
    updatedAt := issue.updated_at
    url := issue.html_url
    state := some issue.state
    number := some issue.number
    isDraft := none }

/-- The pull-request mapping inside getRepositoryPulls. The source's
`pr.merged_at ? 'merged' : pr.state` is a JS truthiness test on a
`string | null` value, so `null` and the empty string both select the raw
state. -/
def normalizePull (owner repo : String) (pr : GitHubPullRequest) :
    NormalizedItem :=
  { id := "pr-" ++ owner ++ "-" ++ repo ++ "-" ++ toString pr.id
    type := "pr"
    repository := repo
    repositoryFullName := owner ++ "/" ++ repo
    title := pr.title
    author := match pr.user with
      | some u => u.login
      | none => "unknown"
    authorAvatarUrl := match pr.user with
      | some u => some u.avatar_url
      | none => none
    labels := pr.labels.map (fun l => { name := l.name, color := l.color })
    assignees := pr.assignees.map
      (fun a => { login := a.login, avatarUrl := a.avatar_url })
    createdAt := pr.created_at
    updatedAt := pr.updated_at
    url := pr.html_url
    state := if strTruthy pr.merged_at then some "merged" else some pr.state
    number := some pr.number
    isDraft := some pr.draft }

/-- One per-branch enrichment lookup of getRepositoryBranches: call
getCommitDetails on the branch head sha, and on any failure swallow the
error and pair the branch with `null` instead (the try/catch around
`this.getCommitDetails`). The lookup oracle abstracts the concurrent
per-branch request; its Except models success or any thrown failure. -/
def branchLookup (lookup : String → Except ReqError GitHubCommit)
    (branch : GitHubBranch) : GitHubBranch × Option GitHubCommit :=
  match lookup branch.commit.sha with
  | .ok commit => (branch, some commit)
  | .error _ => (branch, none)

/-- The branch mapping inside getRepositoryBranches: the last-commit date is
`commit?.commit?.committer?.date || ''` (empty when the lookup failed, and
`||` maps an empty date to the empty string as well), used for both
createdAt and updatedAt; branches have no author, labels, assignees, state,
number or isDraft. -/
def normalizeBranch (owner repo : String)
    (bc : GitHubBranch × Option GitHubCommit) : NormalizedItem :=
  let lastCommitDate := match bc.2 with
    | some c => c.commit.committer.date
    | none => ""
  { id := "branch-" ++ owner ++ "-" ++ repo ++ "-" ++ bc.1.name
    type := "branch"
    repository := repo
    repositoryFullName := owner ++ "/" ++ repo
    title := bc.1.name
    author := ""
    authorAvatarUrl := none
    labels := []
    assignees := []
    createdAt := lastCommitDate
    updatedAt := lastCommitDate
    url := "https://github.com/" ++ owner ++ "/" ++ repo ++ "/tree/" ++
      bc.1.name
    state := none
    number := none
    isDraft := none }

/-- GitHubService.getOrganizationRepos: cache check, full pagination of
`/orgs/:org/repos`, normalization, cache write on success only. -/
def getOrganizationRepos (net : String → HttpResponse (List GitHubRepository))
    (now : Int) (fuel : Nat) (org : String)
    (store : CacheStore (List Repository)) (s : ReqState) :
    Option (Except ReqError (List Repository) ×
      CacheStore (List Repository) × ReqState) :=
  let cacheKey := "repos:" ++ org
  match Cache.get now store cacheKey with
  | (some cached, store2) => some (.ok cached, store2, s)
  | (none, store2) =>
    match fetchAllPages net now ("/orgs/" ++ org ++ "/repos") fuel s with
    | none => none
    | some (.error e, s2) => some (.error e, store2, s2)
    | some (.ok repos, s2) =>
      let normalized := repos.map normalizeRepo
      some (.ok normalized, Cache.set now store2 cacheKey normalized, s2)

/-- GitHubService.getRepositoryIssues: cache check, full pagination of
`/repos/:owner/:repo/issues?state=all`, filter out records carrying the
pull-request marker, normalization, cache write on success only. -/
def getRepositoryIssues (net : String → HttpResponse (List GitHubIssue))
    (now : Int) (fuel : Nat) (owner repo : String)
    (store : CacheStore (List NormalizedItem)) (s : ReqState) :
    Option (Except ReqError (List NormalizedItem) ×
      CacheStore (List NormalizedItem) × ReqState) :=
  let cacheKey := "issues:" ++ owner ++ "/" ++ repo
  match Cache.get now store cacheKey with
  | (some cached, store2) => some (.ok cached, store2, s)
  | (none, store2) =>
    match fetchAllPages net now
        ("/repos/" ++ owner ++ "/" ++ repo ++ "/issues?state=all") fuel s with
    | none => none
    | some (.error e, s2) => some (.error e, store2, s2)
    | some (.ok issues, s2) =>
      let filteredIssues := issues.filter (fun issue => !issue.pull_request)
      let normalized := filteredIssues.map (normalizeIssue owner repo)
      some (.ok normalized, Cache.set now store2 cacheKey normalized, s2)

/-- GitHubService.getRepositoryPulls: cache check, full pagination of
`/repos/:owner/:repo/pulls?state=all`, normalization, cache write on
success only. -/
def getRepositoryPulls (net : String → HttpResponse (List GitHubPullRequest))
    (now : Int) (fuel : Nat) (owner repo : String)
    (store : CacheStore (List NormalizedItem)) (s : ReqState) :
    Option (Except ReqError (List NormalizedItem) ×
      CacheStore (List NormalizedItem) × ReqState) :=
  let cacheKey := "pulls:" ++ owner ++ "/" ++ repo
  match Cache.get now store cacheKey with
  | (some cached, store2) => some (.ok cached, store2, s)
  | (none, store2) =>
    match fetchAllPages net now
        ("/repos/" ++ owner ++ "/" ++ repo ++ "/pulls?state=all") fuel s with
    | none => none
    | some (.error e, s2) => some (.error e, store2, s2)
    | some (.ok pulls, s2) =>
      let normalized := pulls.map (normalizePull owner repo)
      some (.ok normalized, Cache.set now store2 cacheKey normalized, s2)

/-- GitHubService.getRepositoryBranches: cache check, full pagination of
`/repos/:owner/:repo/branches`, then one fault-tolerant commit-detail
lookup per branch (joined as in Promise.all, order preserved),
normalization, cache write on success only. -/
def getRepositoryBranches (net : String → HttpResponse (List GitHubBranch))
    (lookup : String → Except ReqError GitHubCommit) (now : Int) (fuel : Nat)
    (owner repo : String) (store : CacheStore (List NormalizedItem))
    (s : ReqState) :
    Option (Except ReqError (List NormalizedItem) ×
      CacheStore (List NormalizedItem) × ReqState) :=
  let cacheKey := "branches:" ++ owner ++ "/" ++ repo
  match Cache.get now store cacheKey with
  | (some cached, store2) => some (.ok cached, store2, s)
  | (none, store2) =>
    match fetchAllPages net now
        ("/repos/" ++ owner ++ "/" ++ repo ++ "/branches") fuel s with
    | none => none
    | some (.error e, s2) => some (.error e, store2, s2)
    | some (.ok branches, s2) =>
      let branchesWithCommits := branches.map (branchLookup lookup)
      let normalized := branchesWithCommits.map (normalizeBranch owner repo)
      some (.ok normalized, Cache.set now store2 cacheKey normalized, s2)

instance {E A : Type} [DecidableEq E] [DecidableEq A] :
    DecidableEq (Except E A)
  | .ok u, .ok v =>
    if h : u = v then .isTrue (congrArg Except.ok h)
    else .isFalse (fun hc => h (Except.ok.inj hc))
  | .error u, .error v =>
    if h : u = v then .isTrue (congrArg Except.error h)
    else .isFalse (fun hc => h (Except.error.inj hc))
  | .ok _, .error _ => .isFalse (fun hc => Except.noConfusion hc)
  | .error _, .ok _ => .isFalse (fun hc => Except.noConfusion hc)

/-- Structural description of the decimal digit list of a natural number,
used to reason about `Nat.repr` (which computes the same list through the
fuelled `Nat.toDigitsCore`). -/
def decimalDigits (n : Nat) : List Char :=
  if _h : n < 10 then [Nat.digitChar n]
  else decimalDigits (n / 10) ++ [Nat.digitChar (n % 10)]
termination_by n
decreasing_by
  exact Nat.div_lt_self (by omega) (by omega)

lemma find_map_replace {T : Type} (key : String) (e : CacheEntry T) :
    ∀ l : CacheStore T, l.any (fun p => p.1 == key) = true →
      (l.map (fun p => if p.1 == key then (key, e) else p)).find?
          (fun p => p.1 == key) = some (key, e) := by
  intro l
  induction l with
  | nil => intro h; simp at h
  | cons p t ih =>
    intro hany
    rw [List.map_cons]
    by_cases hp : (p.1 == key) = true
    · rw [if_pos hp]
      exact List.find?_cons_of_pos _ (by simp)
    · rw [if_neg hp]
      rw [List.find?_cons_of_neg _ (by simpa using hp)]
      apply ih
      have hp2 : (p.1 == key) = false := by simpa using hp
      simpa [List.any_cons, hp2] using hany

lemma find_append_new {T : Type} (key : String) (e : CacheEntry T) :
    ∀ l : CacheStore T, l.any (fun p => p.1 == key) = false →
      (l ++ [(key, e)]).find? (fun p => p.1 == key) = some (key, e) := by
  intro l
  induction l with
  | nil =>
    intro _
    rw [List.nil_append]
    exact List.find?_cons_of_pos _ (by simp)
  | cons p t ih =>
    intro hany
    simp only [List.any_cons, Bool.or_eq_false_iff] at hany
    rw [List.cons_append, List.find?_cons_of_neg _ (by simp [hany.1])]
    exact ih hany.2

lemma storeFind_insert_self {T : Type} (store : CacheStore T) (key : String)
    (e : CacheEntry T) : storeFind (storeInsert store key e) key = some e := by
  unfold storeInsert
  by_cases hany : store.any (fun p => p.1 == key) = true
  · rw [if_pos hany]
    unfold storeFind
    rw [find_map_replace key e store hany]
    rfl
  · rw [if_neg hany]
    unfold storeFind
    rw [find_append_new key e store (by rwa [Bool.not_eq_true] at hany)]
    rfl

lemma storeFind_erase_self {T : Type} (store : CacheStore T) (key : String) :
    storeFind (storeErase store key) key = none := by
  unfold storeFind storeErase
  have hnone : (store.filter (fun p => !(p.1 == key))).find?
      (fun p => p.1 == key) = none := by
    rw [List.find?_eq_none]
    intro x hx
    have hmem := (List.mem_filter.mp hx).2
    simp only [Bool.not_eq_true'] at hmem
    simp [hmem]
  rw [hnone]
  rfl

/-- C7: for every key and value, `cache.get` immediately after `cache.set`
with that key returns the stored value unchanged (and leaves the store
untouched); once strictly more than the 5-minute TTL has elapsed since the
set, `cache.get` on that key reports absent and the store it returns no
longer holds an entry for the key (lazy expiry on that lookup). -/
theorem cache_set_get_ttl (T : Type) (now now2 : Int) (store : CacheStore T)
    (key : String) (v : T) :
    Cache.get now (Cache.set now store key v) key =
      (some v, Cache.set now store key v)
    ∧ (now + CACHE_TTL_MS < now2 →
        (Cache.get now2 (Cache.set now store key v) key).1 = none
        ∧ storeFind (Cache.get now2 (Cache.set now store key v) key).2 key =
            none) := by
  have hfind : storeFind (Cache.set now store key v) key =
      some { data := v, expiresAt := now + CACHE_TTL_MS } :=
    storeFind_insert_self store key _
  have hfresh : ¬ (now > now + CACHE_TTL_MS) := by
    unfold CACHE_TTL_MS
    omega
  constructor
  · unfold Cache.get
    rw [hfind]
    dsimp only
    rw [if_neg hfresh]
  · intro hlate
    unfold Cache.get
    rw [hfind]
    dsimp only
    rw [if_pos (show now2 > now + CACHE_TTL_MS from hlate)]
    exact ⟨rfl, storeFind_erase_self _ _⟩

/-- Closed instance of C7 at a concrete key, value and clock. -/
theorem cache_set_get_ttl_witness :
    (Cache.get 0 (Cache.set 0 ([] : CacheStore Nat) "k" 7) "k" =
      (some 7, Cache.set 0 ([] : CacheStore Nat) "k" 7))
    ∧ ((Cache.get 300001 (Cache.set 0 ([] : CacheStore Nat) "k" 7) "k").1 =
        none
      ∧ storeFind
          (Cache.get 300001 (Cache.set 0 ([] : CacheStore Nat) "k" 7) "k").2
          "k" = none) :=
  ⟨(cache_set_get_ttl Nat 0 300001 [] "k" 7).1,
   (cache_set_get_ttl Nat 0 300001 [] "k" 7).2 (by decide)⟩

lemma request_not_gated {T : Type} (net : String → HttpResponse T)
    (now : Int) (endpoint : String) (s : ReqState)
    (h : ¬(s.rateLimit.remaining ≤ 0 ∧ now < s.rateLimit.reset)) :
    request net now endpoint s = requestNetwork net endpoint s := by
  unfold request
  by_cases h1 : s.rateLimit.remaining ≤ 0
  · rw [if_pos h1]
    dsimp only
    rw [if_neg (show ¬(s.rateLimit.reset - now > 0) by
      rcases not_and_or.mp h with h2 | h2
      · exact absurd h1 h2
      · omega)]
  · rw [if_neg h1]

lemma requestNetwork_state {T : Type} (net : String → HttpResponse T)
    (endpoint : String) (s : ReqState) :
    (requestNetwork net endpoint s).2 =
      { rateLimit := updateRateLimit s.rateLimit (net (resolveUrl endpoint)),
        calls := s.calls + 1 } := by
  unfold requestNetwork
  dsimp only
  split
  · rfl
  · split <;> rfl

/-- C2: a call to the request executor fails pre-flight with the
rate-limit-exceeded error — leaving the state untouched, so in particular
making no network call — exactly when the tracked remaining count is ≤ 0
and the tracked reset time is strictly in the future; in every other case
(in particular remaining = 0 with the reset in the past) the executor
proceeds to the network call, incrementing the call counter. -/
theorem request_rate_limit_gate (T : Type) (net : String → HttpResponse T)
    (now : Int) (endpoint : String) (s : ReqState) :
    ((request net now endpoint s =
        (.error (.rateLimited (s.rateLimit.reset - now)), s))
      ↔ (s.rateLimit.remaining ≤ 0 ∧ now < s.rateLimit.reset))
    ∧ (¬(s.rateLimit.remaining ≤ 0 ∧ now < s.rateLimit.reset) →
        (request net now endpoint s).2.calls = s.calls + 1) := by
  constructor
  · constructor
    · intro heq
      by_contra hnot
      rw [request_not_gated net now endpoint s hnot] at heq
      have hsnd : (requestNetwork net endpoint s).2 = s :=
        congrArg Prod.snd heq
      rw [requestNetwork_state] at hsnd
      have hcalls : s.calls + 1 = s.calls := congrArg ReqState.calls hsnd
      omega
    · rintro ⟨h1, h2⟩
      unfold request
      rw [if_pos h1]
      dsimp only
      rw [if_pos (show s.rateLimit.reset - now > 0 by omega)]
  · intro hnot
    rw [request_not_gated net now endpoint s hnot, requestNetwork_state]

/-- Closed instance of C2: with remaining = 0 and the reset 90 ms in the
future the request fails pre-flight with the wait time, the state (and its
call counter) unchanged; with remaining = 0 and the reset in the past it
proceeds to the network call. -/
theorem request_rate_limit_gate_witness :
    (request (fun _ => okPage ([] : List Unit)) 10 "/x"
        { rateLimit := { remaining := 0, reset := 100, limit := 5000 },
          calls := 0 } =
      (.error (.rateLimited 90),
        { rateLimit := { remaining := 0, reset := 100, limit := 5000 },
          calls := 0 }))
    ∧ (request (fun _ => okPage ([] : List Unit)) 10 "/x"
        { rateLimit := { remaining := 0, reset := 5, limit := 5000 },
          calls := 0 }).2.calls = 1 :=
  ⟨(request_rate_limit_gate (List Unit) (fun _ => okPage []) 10 "/x"
      { rateLimit := { remaining := 0, reset := 100, limit := 5000 },
        calls := 0 }).1.mpr (by constructor <;> decide),
   (request_rate_limit_gate (List Unit) (fun _ => okPage []) 10 "/x"
      { rateLimit := { remaining := 0, reset := 5, limit := 5000 },
        calls := 0 }).2 (by decide)⟩

/-- C8: the tracker update applied after every upstream response — error
responses included, since the response is arbitrary here — sets each of
remaining / reset / limit from its header when that header is present
(reset converted from epoch seconds to milliseconds) and keeps the prior
value when it is absent; and whenever the pre-flight gate does not trip,
the executor's resulting tracker state is exactly this update applied to
the response the network returned. -/
theorem rate_limit_header_update (T : Type) :
    (∀ (info : RateLimitInfo) (resp : HttpResponse T),
      (updateRateLimit info resp).remaining =
        (match resp.hdrRemaining with
          | some r => r
          | none => info.remaining)
      ∧ (updateRateLimit info resp).reset =
        (match resp.hdrReset with
          | some r => r * 1000
          | none => info.reset)
      ∧ (updateRateLimit info resp).limit =
        (match resp.hdrLimit with
          | some l => l
          | none => info.limit))
    ∧ (∀ (net : String → HttpResponse T) (now : Int) (endpoint : String)
        (s : ReqState),
        ¬(s.rateLimit.remaining ≤ 0 ∧ now < s.rateLimit.reset) →
        (request net now endpoint s).2.rateLimit =
          updateRateLimit s.rateLimit (net (resolveUrl endpoint))) := by
  constructor
  · intro info resp
    obtain ⟨ok, sm, em, hr, hres, hl, body⟩ := resp
    cases hr <;> cases hres <;> cases hl <;>
      simp [updateRateLimit]
  · intro net now endpoint s hnot
    rw [request_not_gated net now endpoint s hnot, requestNetwork_state]

/-- Closed instance of C8: a non-success (403) response carrying remaining
and limit headers but no reset header updates those two fields and keeps
the prior reset. -/
theorem rate_limit_header_update_witness :
    (request
        (fun _ =>
          ({ ok := false, statusMsg := "403 Forbidden",
             errorMessage := some "API rate limit exceeded",
             hdrRemaining := some 0, hdrReset := none,
             hdrLimit := some 5000,
             body := none } : HttpResponse (List Unit)))
        5 "/y"
        { rateLimit := { remaining := 1, reset := 42, limit := 1 },
          calls := 0 }).2.rateLimit =
      updateRateLimit { remaining := 1, reset := 42, limit := 1 }
        ({ ok := false, statusMsg := "403 Forbidden",
           errorMessage := some "API rate limit exceeded",
           hdrRemaining := some 0, hdrReset := none,
           hdrLimit := some 5000,
           body := none } : HttpResponse (List Unit))
    ∧ (updateRateLimit { remaining := 1, reset := 42, limit := 1 }
        ({ ok := false, statusMsg := "403 Forbidden",
           errorMessage := some "API rate limit exceeded",
           hdrRemaining := some 0, hdrReset := none,
           hdrLimit := some 5000,
           body := none } : HttpResponse (List Unit))).remaining = 0
    ∧ (updateRateLimit { remaining := 1, reset := 42, limit := 1 }
        ({ ok := false, statusMsg := "403 Forbidden",
           errorMessage := some "API rate limit exceeded",
           hdrRemaining := some 0, hdrReset := none,
           hdrLimit := some 5000,
           body := none } : HttpResponse (List Unit))).reset = 42 :=
  ⟨(rate_limit_header_update (List Unit)).2 _ 5 "/y"
      { rateLimit := { remaining := 1, reset := 42, limit := 1 },
        calls := 0 } (by decide),
   ((rate_limit_header_update (List Unit)).1
      { remaining := 1, reset := 42, limit := 1 } _).1,
   ((rate_limit_header_update (List Unit)).1
      { remaining := 1, reset := 42, limit := 1 } _).2.1⟩

lemma request_okPage {T : Type} (net : String → HttpResponse (List T))
    (now : Int) (endpoint : String) (s : ReqState) (l : List T)
    (hrem : 0 < s.rateLimit.remaining)
    (hnet : net (resolveUrl endpoint) = okPage l) :
    request net now endpoint s =
      (.ok l, { rateLimit := s.rateLimit, calls := s.calls + 1 }) := by
  rw [request_not_gated net now endpoint s (fun h => not_le.mpr hrem h.1)]
  unfold requestNetwork
  dsimp only
  rw [hnet]
  simp [okPage, updateRateLimit]

lemma fetchAllPagesAux_goodPages {T : Type}
    (net : String → HttpResponse (List T)) (now : Int) (endpoint : String) :
    ∀ (pages : List (List T)) (fuel page : Nat) (acc : List T) (s : ReqState),
      goodPages pages = true →
      (∀ i, i < pages.length →
        net (resolveUrl (pageUrl endpoint 100 (page + i))) =
          okPage (pages.getD i [])) →
      0 < s.rateLimit.remaining →
      pages.length ≤ fuel →
      fetchAllPagesAux net now endpoint 100 fuel page acc s =
        some (.ok (acc ++ pages.flatten),
          { rateLimit := s.rateLimit, calls := s.calls + pages.length }) := by
  intro pages
  induction pages with
  | nil =>
    intro fuel page acc s hgood _ _ _
    simp [goodPages] at hgood
  | cons l rest ih =>
    intro fuel page acc s hgood hnet hrem hfuel
    obtain ⟨f, rfl⟩ : ∃ f, fuel = f + 1 :=
      ⟨fuel - 1, by simp at hfuel; omega⟩
    have h0 : net (resolveUrl (pageUrl endpoint 100 page)) = okPage l := by
      have h := hnet 0 (by simp)
      simpa using h
    rw [show fetchAllPagesAux net now endpoint 100 (f + 1) page acc s =
        match request net now (pageUrl endpoint 100 page) s with
        | (.error e, s2) => some (.error e, s2)
        | (.ok data, s2) =>
          let results2 := acc ++ data
          if data.length < 100 then some (.ok results2, s2)
          else fetchAllPagesAux net now endpoint 100 f (page + 1) results2 s2
      from rfl]
    rw [request_okPage net now _ s l hrem h0]
    dsimp only
    cases rest with
    | nil =>
      have hshort : l.length < 100 := by simpa [goodPages] using hgood
      rw [if_pos hshort]
      simp
    | cons r rest2 =>
      have hgood2 : (l.length = 100) ∧ goodPages (r :: rest2) = true := by
        simpa [goodPages] using hgood
      rw [if_neg (by omega : ¬ l.length < 100)]
      have hnet2 : ∀ i, i < (r :: rest2).length →
          net (resolveUrl (pageUrl endpoint 100 (page + 1 + i))) =
            okPage ((r :: rest2).getD i []) := by
        intro i hi
        have h := hnet (i + 1) (by simp at hi ⊢; omega)
        have heq : page + (i + 1) = page + 1 + i := by omega
        rw [heq] at h
        simpa using h
      rw [ih f (page + 1) (acc ++ l)
        { rateLimit := s.rateLimit, calls := s.calls + 1 }
        hgood2.2 hnet2 hrem (by simp at hfuel ⊢; omega)]
      have h1 : acc ++ l ++ (r :: rest2).flatten =
          acc ++ (l :: r :: rest2).flatten := by
        simp [List.append_assoc]
      have h2 : s.calls + 1 + (r :: rest2).length =
          s.calls + (l :: r :: rest2).length := by
        simp only [List.length_cons]
        omega
      rw [h1, h2]

/-- C1: for every well-formed sequence of upstream pages (all full pages
of size 100 followed by one short page, possibly empty), fetchAllPages
requests pages sequentially starting at page 1 with the fixed page size
100, concatenates the pages' items in arrival order, and stops exactly
with the first short page: it returns the concatenation of all pages after
exactly one upstream call per page. -/
theorem fetchAllPages_pagination (T : Type)
    (net : String → HttpResponse (List T)) (now : Int) (endpoint : String)
    (fuel : Nat) (s : ReqState) (pages : List (List T))
    (hgood : goodPages pages = true)
    (hnet : ∀ i, i < pages.length →
      net (resolveUrl (pageUrl endpoint 100 (1 + i))) =
        okPage (pages.getD i []))
    (hrem : 0 < s.rateLimit.remaining)
    (hfuel : pages.length ≤ fuel) :
    fetchAllPages net now endpoint fuel s =
      some (.ok pages.flatten,
        { rateLimit := s.rateLimit, calls := s.calls + pages.length }) := by
  unfold fetchAllPages
  have h := fetchAllPagesAux_goodPages net now endpoint pages fuel 1 [] s
    hgood hnet hrem hfuel
  simpa using h

set_option maxRecDepth 100000 in
/-- Closed instance of C1: pages of sizes [100, 100, 37] give the 237
concatenated items after exactly 3 calls, and pages of sizes
[100, 100, 100, 0] give the 300 items after exactly 4 calls. -/
theorem fetchAllPages_pagination_witness :
    (fetchAllPages
        (fun url =>
          if url = resolveUrl (pageUrl "/t" 100 3) then
            okPage (List.replicate 37 ())
          else okPage (List.replicate 100 ()))
        0 "/t" 5
        { rateLimit := { remaining := 5000, reset := 0, limit := 5000 },
          calls := 0 } =
      some (.ok ([List.replicate 100 (), List.replicate 100 (),
          List.replicate 37 ()] : List (List Unit)).flatten,
        { rateLimit := { remaining := 5000, reset := 0, limit := 5000 },
          calls := 3 }))
    ∧ ([List.replicate 100 (), List.replicate 100 (),
        List.replicate 37 ()] : List (List Unit)).flatten.length = 237
    ∧ (fetchAllPages
        (fun url =>
          if url = resolveUrl (pageUrl "/t" 100 4) then
            okPage ([] : List Unit)
          else okPage (List.replicate 100 ()))
        0 "/t" 5
        { rateLimit := { remaining := 5000, reset := 0, limit := 5000 },
          calls := 0 } =
      some (.ok ([List.replicate 100 (), List.replicate 100 (),
          List.replicate 100 (), []] : List (List Unit)).flatten,
        { rateLimit := { remaining := 5000, reset := 0, limit := 5000 },
          calls := 4 }))
    ∧ ([List.replicate 100 (), List.replicate 100 (),
        List.replicate 100 (), []] : List (List Unit)).flatten.length = 300 :=
  ⟨fetchAllPages_pagination Unit _ 0 "/t" 5 _
      [List.replicate 100 (), List.replicate 100 (), List.replicate 37 ()]
      (by decide) (by decide) (by decide) (by decide),
   by decide,
   fetchAllPages_pagination Unit _ 0 "/t" 5 _
      [List.replicate 100 (), List.replicate 100 (), List.replicate 100 (),
        []]
      (by decide) (by decide) (by decide) (by decide),
   by decide⟩

lemma getRepositoryIssues_miss_ok (net : String → HttpResponse (List GitHubIssue))
    (now : Int) (fuel : Nat) (owner repo : String)
    (store store2 : CacheStore (List NormalizedItem)) (s s2 : ReqState)
    (issues : List GitHubIssue)
    (hmiss : Cache.get now store ("issues:" ++ owner ++ "/" ++ repo) =
      (none, store2))
    (hfetch : fetchAllPages net now
      ("/repos/" ++ owner ++ "/" ++ repo ++ "/issues?state=all") fuel s =
      some (.ok issues, s2)) :
    getRepositoryIssues net now fuel owner repo store s =
      some (.ok ((issues.filter (fun issue => !issue.pull_request)).map
          (normalizeIssue owner repo)),
        Cache.set now store2 ("issues:" ++ owner ++ "/" ++ repo)
          ((issues.filter (fun issue => !issue.pull_request)).map
            (normalizeIssue owner repo)), s2) := by
  unfold getRepositoryIssues
  dsimp only
  rw [hmiss]
  dsimp only
  rw [hfetch]

lemma getRepositoryPulls_miss_ok
    (net : String → HttpResponse (List GitHubPullRequest))
    (now : Int) (fuel : Nat) (owner repo : String)
    (store store2 : CacheStore (List NormalizedItem)) (s s2 : ReqState)
    (pulls : List GitHubPullRequest)
    (hmiss : Cache.get now store ("pulls:" ++ owner ++ "/" ++ repo) =
      (none, store2))
    (hfetch : fetchAllPages net now
      ("/repos/" ++ owner ++ "/" ++ repo ++ "/pulls?state=all") fuel s =
      some (.ok pulls, s2)) :
    getRepositoryPulls net now fuel owner repo store s =
      some (.ok (pulls.map (normalizePull owner repo)),
        Cache.set now store2 ("pulls:" ++ owner ++ "/" ++ repo)
          (pulls.map (normalizePull owner repo)), s2) := by
  unfold getRepositoryPulls
  dsimp only
  rw [hmiss]
  dsimp only
  rw [hfetch]

lemma getRepositoryBranches_miss_ok
    (net : String → HttpResponse (List GitHubBranch))
    (lookup : String → Except ReqError GitHubCommit)
    (now : Int) (fuel : Nat) (owner repo : String)
    (store store2 : CacheStore (List NormalizedItem)) (s s2 : ReqState)
    (branches : List GitHubBranch)
    (hmiss : Cache.get now store ("branches:" ++ owner ++ "/" ++ repo) =
      (none, store2))
    (hfetch : fetchAllPages net now
      ("/repos/" ++ owner ++ "/" ++ repo ++ "/branches") fuel s =
      some (.ok branches, s2)) :
    getRepositoryBranches net lookup now fuel owner repo store s =
      some (.ok ((branches.map (branchLookup lookup)).map
          (normalizeBranch owner repo)),
        Cache.set now store2 ("branches:" ++ owner ++ "/" ++ repo)
          ((branches.map (branchLookup lookup)).map
            (normalizeBranch owner repo)), s2) := by
  unfold getRepositoryBranches
  dsimp only
  rw [hmiss]
  dsimp only
  rw [hfetch]

/-- C5: on a cache miss with a successful fetch, getRepositoryIssues
returns exactly the records without the pull-request marker, normalized in
order; every unmarked fetched record appears in the result, and every
result item has `type = "issue"` and comes from an unmarked fetched
record — never from a record carrying the marker. -/
theorem issues_exclude_pull_requests
    (net : String → HttpResponse (List GitHubIssue))
    (now : Int) (fuel : Nat) (owner repo : String)
    (store store2 : CacheStore (List NormalizedItem)) (s s2 : ReqState)
    (issues : List GitHubIssue)
    (hmiss : Cache.get now store ("issues:" ++ owner ++ "/" ++ repo) =
      (none, store2))
    (hfetch : fetchAllPages net now
      ("/repos/" ++ owner ++ "/" ++ repo ++ "/issues?state=all") fuel s =
      some (.ok issues, s2)) :
    getRepositoryIssues net now fuel owner repo store s =
      some (.ok ((issues.filter (fun issue => !issue.pull_request)).map
          (normalizeIssue owner repo)),
        Cache.set now store2 ("issues:" ++ owner ++ "/" ++ repo)
          ((issues.filter (fun issue => !issue.pull_request)).map
            (normalizeIssue owner repo)), s2)
    ∧ (∀ r ∈ issues, r.pull_request = false →
        normalizeIssue owner repo r ∈
          (issues.filter (fun issue => !issue.pull_request)).map
            (normalizeIssue owner repo))
    ∧ (∀ item ∈ (issues.filter (fun issue => !issue.pull_request)).map
          (normalizeIssue owner repo),
        item.type = "issue"
        ∧ ∃ r ∈ issues, r.pull_request = false
            ∧ item = normalizeIssue owner repo r) := by
  refine ⟨getRepositoryIssues_miss_ok net now fuel owner repo store store2
    s s2 issues hmiss hfetch, ?_, ?_⟩
  · intro r hr hmark
    exact List.mem_map_of_mem _ (List.mem_filter.mpr ⟨hr, by simp [hmark]⟩)
  · intro item hitem
    rcases List.mem_map.mp hitem with ⟨r, hrf, hnorm⟩
    rcases List.mem_filter.mp hrf with ⟨hrm, hpred⟩
    refine ⟨by rw [← hnorm]; rfl, r, hrm, by simpa using hpred, hnorm.symm⟩

/-- Closed instance of C5: of two fetched records, the one carrying the
pull-request marker is dropped and the other one is kept as an issue. -/
theorem issues_exclude_pull_requests_witness :
    getRepositoryIssues
        (fun _ => okPage
          [{ id := 1, number := 1, title := "A", html_url := "u1",
             state := "open", created_at := "c1", updated_at := "u1",
             user := none, labels := [], assignees := [],
             pull_request := false },
           { id := 2, number := 2, title := "B", html_url := "u2",
             state := "open", created_at := "c2", updated_at := "u2",
             user := none, labels := [], assignees := [],
             pull_request := true }])
        0 1 "o" "r" []
        { rateLimit := { remaining := 5000, reset := 0, limit := 5000 },
          calls := 0 } =
      some (.ok [normalizeIssue "o" "r"
          { id := 1, number := 1, title := "A", html_url := "u1",
            state := "open", created_at := "c1", updated_at := "u1",
            user := none, labels := [], assignees := [],
            pull_request := false }],
        Cache.set 0 [] ("issues:" ++ "o" ++ "/" ++ "r")
          [normalizeIssue "o" "r"
            { id := 1, number := 1, title := "A", html_url := "u1",
              state := "open", created_at := "c1", updated_at := "u1",
              user := none, labels := [], assignees := [],
              pull_request := false }],
        { rateLimit := { remaining := 5000, reset := 0, limit := 5000 },
          calls := 1 }) :=
  (issues_exclude_pull_requests
    (fun _ => okPage
      [{ id := 1, number := 1, title := "A", html_url := "u1",
         state := "open", created_at := "c1", updated_at := "u1",
         user := none, labels := [], assignees := [],
         pull_request := false },
       { id := 2, number := 2, title := "B", html_url := "u2",
         state := "open", created_at := "c2", updated_at := "u2",
         user := none, labels := [], assignees := [],
         pull_request := true }])
    0 1 "o" "r" [] []
    { rateLimit := { remaining := 5000, reset := 0, limit := 5000 },
      calls := 0 }
    { rateLimit := { remaining := 5000, reset := 0, limit := 5000 },
      calls := 1 }
    [{ id := 1, number := 1, title := "A", html_url := "u1",
       state := "open", created_at := "c1", updated_at := "u1",
       user := none, labels := [], assignees := [],
       pull_request := false },
     { id := 2, number := 2, title := "B", html_url := "u2",
       state := "open", created_at := "c2", updated_at := "u2",
       user := none, labels := [], assignees := [],
       pull_request := true }]
    (by decide) (by decide)).1

/-- Counterexample to C4 as stated: a fetched pull-request record whose
merge timestamp is non-null but empty (`merged_at = some ""`, a value of
the declared type `string | null`) is normalized by getRepositoryPulls
with its raw state `"open"`, not `"merged"`, because the source tests
`pr.merged_at ?` — JS truthiness — and the empty string is falsy. -/
theorem pulls_merged_nonnull_counterexample :
    (getRepositoryPulls
        (fun _ => okPage
          [{ id := 9, number := 2, title := "B", html_url := "u",
             state := "open", created_at := "c", updated_at := "u",
             user := none, labels := [], assignees := [],
             draft := false, merged_at := some "" }])
        0 1 "o" "r" []
        { rateLimit := { remaining := 5000, reset := 0, limit := 5000 },
          calls := 0 } =
      some (.ok [normalizePull "o" "r"
          { id := 9, number := 2, title := "B", html_url := "u",
            state := "open", created_at := "c", updated_at := "u",
            user := none, labels := [], assignees := [],
            draft := false, merged_at := some "" }],
        Cache.set 0 [] ("pulls:" ++ "o" ++ "/" ++ "r")
          [normalizePull "o" "r"
            { id := 9, number := 2, title := "B", html_url := "u",
              state := "open", created_at := "c", updated_at := "u",
              user := none, labels := [], assignees := [],
              draft := false, merged_at := some "" }],
        { rateLimit := { remaining := 5000, reset := 0, limit := 5000 },
          calls := 1 }))
    ∧ ({ id := 9, number := 2, title := "B", html_url := "u",
         state := "open", created_at := "c", updated_at := "u",
         user := none, labels := [], assignees := [],
         draft := false, merged_at := some "" } :
          GitHubPullRequest).merged_at ≠ none
    ∧ (normalizePull "o" "r"
        { id := 9, number := 2, title := "B", html_url := "u",
          state := "open", created_at := "c", updated_at := "u",
          user := none, labels := [], assignees := [],
          draft := false, merged_at := some "" }).state = some "open"
    ∧ (normalizePull "o" "r"
        { id := 9, number := 2, title := "B", html_url := "u",
          state := "open", created_at := "c", updated_at := "u",
          user := none, labels := [], assignees := [],
          draft := false, merged_at := some "" }).state ≠ some "merged" := by
  refine ⟨?_, by decide, by decide, by decide⟩
  exact getRepositoryPulls_miss_ok
    (fun _ => okPage
      [{ id := 9, number := 2, title := "B", html_url := "u",
         state := "open", created_at := "c", updated_at := "u",
         user := none, labels := [], assignees := [],
         draft := false, merged_at := some "" }])
    0 1 "o" "r" [] []
    { rateLimit := { remaining := 5000, reset := 0, limit := 5000 },
      calls := 0 }
    { rateLimit := { remaining := 5000, reset := 0, limit := 5000 },
      calls := 1 }
    [{ id := 9, number := 2, title := "B", html_url := "u",
       state := "open", created_at := "c", updated_at := "u",
       user := none, labels := [], assignees := [],
       draft := false, merged_at := some "" }]
    (by decide) (by decide)

/-- C4 as amended: a pull-request record is normalized by
getRepositoryPulls with `state = "merged"` exactly when its merge
timestamp is truthy (non-null and non-empty), regardless of the raw
state field; with a null merge timestamp the raw open/closed state is
kept, and isDraft is set from the raw draft flag. On a cache miss with a
successful fetch the result is exactly the fetched records normalized in
order. -/
theorem pulls_state_normalization
    (net : String → HttpResponse (List GitHubPullRequest))
    (now : Int) (fuel : Nat) (owner repo : String)
    (store store2 : CacheStore (List NormalizedItem)) (s s2 : ReqState)
    (pulls : List GitHubPullRequest)
    (hmiss : Cache.get now store ("pulls:" ++ owner ++ "/" ++ repo) =
      (none, store2))
    (hfetch : fetchAllPages net now
      ("/repos/" ++ owner ++ "/" ++ repo ++ "/pulls?state=all") fuel s =
      some (.ok pulls, s2)) :
    getRepositoryPulls net now fuel owner repo store s =
      some (.ok (pulls.map (normalizePull owner repo)),
        Cache.set now store2 ("pulls:" ++ owner ++ "/" ++ repo)
          (pulls.map (normalizePull owner repo)), s2)
    ∧ (∀ pr : GitHubPullRequest,
        (strTruthy pr.merged_at = true →
          (normalizePull owner repo pr).state = some "merged")
        ∧ (strTruthy pr.merged_at = false →
          (normalizePull owner repo pr).state = some pr.state)
        ∧ (pr.merged_at = none →
          (normalizePull owner repo pr).state = some pr.state)
        ∧ (normalizePull owner repo pr).isDraft = some pr.draft) := by
  refine ⟨getRepositoryPulls_miss_ok net now fuel owner repo store store2
    s s2 pulls hmiss hfetch, ?_⟩
  intro pr
  refine ⟨fun ht => ?_, fun hf => ?_, fun hn => ?_, rfl⟩
  · simp [normalizePull, ht]
  · simp [normalizePull, hf]
  · simp [normalizePull, strTruthy, hn]

/-- Closed instance of the amended C4: a record with a truthy merge
timestamp and raw state "closed" comes out merged, and one with a null
merge timestamp and raw state "open" comes out open, through the full
getRepositoryPulls pipeline. -/
theorem pulls_state_normalization_witness :
    getRepositoryPulls
        (fun _ => okPage
          [{ id := 3, number := 4, title := "C", html_url := "u3",
             state := "closed", created_at := "c3", updated_at := "u3",
             user := none, labels := [], assignees := [],
             draft := true, merged_at := some "2024-01-02T03:04:05Z" },
           { id := 4, number := 5, title := "D", html_url := "u4",
             state := "open", created_at := "c4", updated_at := "u4",
             user := none, labels := [], assignees := [],
             draft := false, merged_at := none }])
        0 1 "o" "r" []
        { rateLimit := { remaining := 5000, reset := 0, limit := 5000 },
          calls := 0 } =
      some (.ok
          [normalizePull "o" "r"
            { id := 3, number := 4, title := "C", html_url := "u3",
              state := "closed", created_at := "c3", updated_at := "u3",
              user := none, labels := [], assignees := [],
              draft := true, merged_at := some "2024-01-02T03:04:05Z" },
           normalizePull "o" "r"
            { id := 4, number := 5, title := "D", html_url := "u4",
              state := "open", created_at := "c4", updated_at := "u4",
              user := none, labels := [], assignees := [],
              draft := false, merged_at := none }],
        Cache.set 0 [] ("pulls:" ++ "o" ++ "/" ++ "r")
          [normalizePull "o" "r"
            { id := 3, number := 4, title := "C", html_url := "u3",
              state := "closed", created_at := "c3", updated_at := "u3",
              user := none, labels := [], assignees := [],
              draft := true, merged_at := some "2024-01-02T03:04:05Z" },
           normalizePull "o" "r"
            { id := 4, number := 5, title := "D", html_url := "u4",
              state := "open", created_at := "c4", updated_at := "u4",
              user := none, labels := [], assignees := [],
              draft := false, merged_at := none }],
        { rateLimit := { remaining := 5000, reset := 0, limit := 5000 },
          calls := 1 })
    ∧ (normalizePull "o" "r"
        { id := 3, number := 4, title := "C", html_url := "u3",
          state := "closed", created_at := "c3", updated_at := "u3",
          user := none, labels := [], assignees := [],
          draft := true, merged_at := some "2024-01-02T03:04:05Z" }).state =
        some "merged"
    ∧ (normalizePull "o" "r"
        { id := 4, number := 5, title := "D", html_url := "u4",
          state := "open", created_at := "c4", updated_at := "u4",
          user := none, labels := [], assignees := [],
          draft := false, merged_at := none }).state = some "open" := by
  have h := pulls_state_normalization
    (fun _ => okPage
      [{ id := 3, number := 4, title := "C", html_url := "u3",
         state := "closed", created_at := "c3", updated_at := "u3",
         user := none, labels := [], assignees := [],
         draft := true, merged_at := some "2024-01-02T03:04:05Z" },
       { id := 4, number := 5, title := "D", html_url := "u4",
         state := "open", created_at := "c4", updated_at := "u4",
         user := none, labels := [], assignees := [],
         draft := false, merged_at := none }])
    0 1 "o" "r" [] []
    { rateLimit := { remaining := 5000, reset := 0, limit := 5000 },
      calls := 0 }
    { rateLimit := { remaining := 5000, reset := 0, limit := 5000 },
      calls := 1 }
    [{ id := 3, number := 4, title := "C", html_url := "u3",
       state := "closed", created_at := "c3", updated_at := "u3",
       user := none, labels := [], assignees := [],
       draft := true, merged_at := some "2024-01-02T03:04:05Z" },
     { id := 4, number := 5, title := "D", html_url := "u4",
       state := "open", created_at := "c4", updated_at := "u4",
       user := none, labels := [], assignees := [],
       draft := false, merged_at := none }]
    (by decide) (by decide)
  exact ⟨h.1,
    (h.2
        { id := 3, number := 4, title := "C", html_url := "u3",
          state := "closed", created_at := "c3", updated_at := "u3",
          user := none, labels := [], assignees := [],
          draft := true, merged_at := some "2024-01-02T03:04:05Z" }).1
      (by decide),
    ((h.2
        { id := 4, number := 5, title := "D", html_url := "u4",
          state := "open", created_at := "c4", updated_at := "u4",
          user := none, labels := [], assignees := [],
          draft := false, merged_at := none }).2.2.1 rfl)⟩

/-- C3: on a cache miss with a successful branch-list fetch,
getRepositoryBranches returns one normalized item per fetched branch in
order (no branch is dropped and no error escapes), even when some
per-branch head-commit lookups fail; a branch whose lookup failed has
`createdAt = ""` and `updatedAt = ""`, and a branch whose lookup succeeded
has the resolved commit date in both fields. -/
theorem branches_fault_tolerance
    (net : String → HttpResponse (List GitHubBranch))
    (lookup : String → Except ReqError GitHubCommit)
    (now : Int) (fuel : Nat) (owner repo : String)
    (store store2 : CacheStore (List NormalizedItem)) (s s2 : ReqState)
    (branches : List GitHubBranch)
    (hmiss : Cache.get now store ("branches:" ++ owner ++ "/" ++ repo) =
      (none, store2))
    (hfetch : fetchAllPages net now
      ("/repos/" ++ owner ++ "/" ++ repo ++ "/branches") fuel s =
      some (.ok branches, s2)) :
    getRepositoryBranches net lookup now fuel owner repo store s =
      some (.ok ((branches.map (branchLookup lookup)).map
          (normalizeBranch owner repo)),
        Cache.set now store2 ("branches:" ++ owner ++ "/" ++ repo)
          ((branches.map (branchLookup lookup)).map
            (normalizeBranch owner repo)), s2)
    ∧ ((branches.map (branchLookup lookup)).map
        (normalizeBranch owner repo)).length = branches.length
    ∧ (∀ b ∈ branches,
        (∀ e, lookup b.commit.sha = .error e →
          (normalizeBranch owner repo (branchLookup lookup b)).createdAt = ""
          ∧ (normalizeBranch owner repo (branchLookup lookup b)).updatedAt =
              "")
        ∧ (∀ c, lookup b.commit.sha = .ok c →
          (normalizeBranch owner repo (branchLookup lookup b)).createdAt =
              c.commit.committer.date
          ∧ (normalizeBranch owner repo (branchLookup lookup b)).updatedAt =
              c.commit.committer.date)) := by
  refine ⟨getRepositoryBranches_miss_ok net lookup now fuel owner repo store
    store2 s s2 branches hmiss hfetch, by simp, ?_⟩
  intro b _
  constructor
  · intro e he
    constructor <;> simp [branchLookup, he, normalizeBranch]
  · intro c hc
    constructor <;> simp [branchLookup, hc, normalizeBranch]

/-- Closed instance of C3: of three fetched branches, the middle one's
commit lookup fails; all three branches are still returned, the failing
one with empty dates and the other two with the resolved commit date in
both fields. -/
theorem branches_fault_tolerance_witness :
    getRepositoryBranches
        (fun _ => okPage
          [{ name := "b1", commit := { sha := "s1", url := "cu1" },
             «protected» := false },
           { name := "b2", commit := { sha := "s2", url := "cu2" },
             «protected» := false },
           { name := "b3", commit := { sha := "s3", url := "cu3" },
             «protected» := true }])
        (fun sha =>
          if sha = "s2" then .error (.upstream "boom")
          else .ok
            { sha := sha,
              commit :=
                { author :=
                    { name := "an", email := "ae",
                      date := "2023-05-06T07:08:09Z" },
                  committer :=
                    { name := "cn", email := "ce",
                      date := "2024-05-06T07:08:09Z" },
                  message := "m" },
              author := none, committer := none })
        0 1 "o" "r" []
        { rateLimit := { remaining := 5000, reset := 0, limit := 5000 },
          calls := 0 } =
      some (.ok
          [normalizeBranch "o" "r"
            (branchLookup
              (fun sha =>
                if sha = "s2" then .error (.upstream "boom")
                else .ok
                  { sha := sha,
                    commit :=
                      { author :=
                          { name := "an", email := "ae",
                            date := "2023-05-06T07:08:09Z" },
                        committer :=
                          { name := "cn", email := "ce",
                            date := "2024-05-06T07:08:09Z" },
                        message := "m" },
                    author := none, committer := none })
              { name := "b1", commit := { sha := "s1", url := "cu1" },
                «protected» := false }),
           normalizeBranch "o" "r"
            (branchLookup
              (fun sha =>
                if sha = "s2" then .error (.upstream "boom")
                else .ok
                  { sha := sha,
                    commit :=
                      { author :=
                          { name := "an", email := "ae",
                            date := "2023-05-06T07:08:09Z" },
                        committer :=
                          { name := "cn", email := "ce",
                            date := "2024-05-06T07:08:09Z" },
                        message := "m" },
                    author := none, committer := none })
              { name := "b2", commit := { sha := "s2", url := "cu2" },
                «protected» := false }),
           normalizeBranch "o" "r"
            (branchLookup
              (fun sha =>
                if sha = "s2" then .error (.upstream "boom")
                else .ok
                  { sha := sha,
                    commit :=
                      { author :=
                          { name := "an", email := "ae",
                            date := "2023-05-06T07:08:09Z" },
                        committer :=
                          { name := "cn", email := "ce",
                            date := "2024-05-06T07:08:09Z" },
                        message := "m" },
                    author := none, committer := none })
              { name := "b3", commit := { sha := "s3", url := "cu3" },
                «protected» := true })],
        Cache.set 0 [] ("branches:" ++ "o" ++ "/" ++ "r")
          [normalizeBranch "o" "r"
            (branchLookup
              (fun sha =>
                if sha = "s2" then .error (.upstream "boom")
                else .ok
                  { sha := sha,
                    commit :=
                      { author :=
                          { name := "an", email := "ae",
                            date := "2023-05-06T07:08:09Z" },
                        committer :=
                          { name := "cn", email := "ce",
                            date := "2024-05-06T07:08:09Z" },
                        message := "m" },
                    author := none, committer := none })
              { name := "b1", commit := { sha := "s1", url := "cu1" },
                «protected» := false }),
           normalizeBranch "o" "r"
            (branchLookup
              (fun sha =>
                if sha = "s2" then .error (.upstream "boom")
                else .ok
                  { sha := sha,
                    commit :=
                      { author :=
                          { name := "an", email := "ae",
                            date := "2023-05-06T07:08:09Z" },
                        committer :=
                          { name := "cn", email := "ce",
                            date := "2024-05-06T07:08:09Z" },
                        message := "m" },
                    author := none, committer := none })
              { name := "b2", commit := { sha := "s2", url := "cu2" },
                «protected» := false }),
           normalizeBranch "o" "r"
            (branchLookup
              (fun sha =>
                if sha = "s2" then .error (.upstream "boom")
                else .ok
                  { sha := sha,
                    commit :=
                      { author :=
                          { name := "an", email := "ae",
                            date := "2023-05-06T07:08:09Z" },
                        committer :=
                          { name := "cn", email := "ce",
                            date := "2024-05-06T07:08:09Z" },
                        message := "m" },
                    author := none, committer := none })
              { name := "b3", commit := { sha := "s3", url := "cu3" },
                «protected» := true })],
        { rateLimit := { remaining := 5000, reset := 0, limit := 5000 },
          calls := 1 })
    ∧ (normalizeBranch "o" "r"
        (branchLookup
          (fun sha =>
            if sha = "s2" then .error (.upstream "boom")
            else .ok
              { sha := sha,
                commit :=
                  { author :=
                      { name := "an", email := "ae",
                        date := "2023-05-06T07:08:09Z" },
                    committer :=
                      { name := "cn", email := "ce",
                        date := "2024-05-06T07:08:09Z" },
                    message := "m" },
                author := none, committer := none })
          { name := "b2", commit := { sha := "s2", url := "cu2" },
            «protected» := false })).createdAt = ""
    ∧ (normalizeBranch "o" "r"
        (branchLookup
          (fun sha =>
            if sha = "s2" then .error (.upstream "boom")
            else .ok
              { sha := sha,
                commit :=
                  { author :=
                      { name := "an", email := "ae",
                        date := "2023-05-06T07:08:09Z" },
                    committer :=
                      { name := "cn", email := "ce",
                        date := "2024-05-06T07:08:09Z" },
                    message := "m" },
                author := none, committer := none })
          { name := "b1", commit := { sha := "s1", url := "cu1" },
            «protected» := false })).createdAt = "2024-05-06T07:08:09Z" := by
  have h := branches_fault_tolerance
    (fun _ => okPage
      [{ name := "b1", commit := { sha := "s1", url := "cu1" },
         «protected» := false },
       { name := "b2", commit := { sha := "s2", url := "cu2" },
         «protected» := false },
       { name := "b3", commit := { sha := "s3", url := "cu3" },
         «protected» := true }])
    (fun sha =>
      if sha = "s2" then .error (.upstream "boom")
      else .ok
        { sha := sha,
          commit :=
            { author :=
                { name := "an", email := "ae",
                  date := "2023-05-06T07:08:09Z" },
              committer :=
                { name := "cn", email := "ce",
                  date := "2024-05-06T07:08:09Z" },
              message := "m" },
          author := none, committer := none })
    0 1 "o" "r" [] []
    { rateLimit := { remaining := 5000, reset := 0, limit := 5000 },
      calls := 0 }
    { rateLimit := { remaining := 5000, reset := 0, limit := 5000 },
      calls := 1 }
    [{ name := "b1", commit := { sha := "s1", url := "cu1" },
       «protected» := false },
     { name := "b2", commit := { sha := "s2", url := "cu2" },
       «protected» := false },
     { name := "b3", commit := { sha := "s3", url := "cu3" },
       «protected» := true }]
    (by decide) (by decide)
  refine ⟨h.1, ?_, ?_⟩
  · exact ((h.2.2
      { name := "b2", commit := { sha := "s2", url := "cu2" },
        «protected» := false } (by decide)).1 (.upstream "boom")
      (by decide)).1
  · exact ((h.2.2
      { name := "b1", commit := { sha := "s1", url := "cu1" },
        «protected» := false } (by decide)).2
      { sha := "s1",
        commit :=
          { author :=
              { name := "an", email := "ae",
                date := "2023-05-06T07:08:09Z" },
            committer :=
              { name := "cn", email := "ce",
                date := "2024-05-06T07:08:09Z" },
            message := "m" },
        author := none, committer := none } (by decide)).1

/-- Counterexample to C6 as stated: for a head commit whose author date
and committer date differ, the branch item produced by
getRepositoryBranches carries the commit's committer date
(`commit.commit.committer.date`), not its author date — the claim's
"author-date" is wrong on the code. -/
theorem branch_author_date_counterexample :
    (getRepositoryBranches
        (fun _ => okPage
          [{ name := "main", commit := { sha := "s1", url := "cu1" },
             «protected» := false }])
        (fun _ => .ok
          { sha := "s1",
            commit :=
              { author :=
                  { name := "an", email := "ae",
                    date := "2020-01-01T00:00:00Z" },
                committer :=
                  { name := "cn", email := "ce",
                    date := "2021-01-01T00:00:00Z" },
                message := "m" },
            author := none, committer := none })
        0 1 "o" "r" []
        { rateLimit := { remaining := 5000, reset := 0, limit := 5000 },
          calls := 0 } =
      some (.ok
          [normalizeBranch "o" "r"
            (branchLookup
              (fun _ => .ok
                { sha := "s1",
                  commit :=
                    { author :=
                        { name := "an", email := "ae",
                          date := "2020-01-01T00:00:00Z" },
                      committer :=
                        { name := "cn", email := "ce",
                          date := "2021-01-01T00:00:00Z" },
                      message := "m" },
                  author := none, committer := none })
              { name := "main", commit := { sha := "s1", url := "cu1" },
                «protected» := false })],
        Cache.set 0 [] ("branches:" ++ "o" ++ "/" ++ "r")
          [normalizeBranch "o" "r"
            (branchLookup
              (fun _ => .ok
                { sha := "s1",
                  commit :=
                    { author :=
                        { name := "an", email := "ae",
                          date := "2020-01-01T00:00:00Z" },
                      committer :=
                        { name := "cn", email := "ce",
                          date := "2021-01-01T00:00:00Z" },
                      message := "m" },
                  author := none, committer := none })
              { name := "main", commit := { sha := "s1", url := "cu1" },
                «protected» := false })],
        { rateLimit := { remaining := 5000, reset := 0, limit := 5000 },
          calls := 1 }))
    ∧ (normalizeBranch "o" "r"
        (branchLookup
          (fun _ => .ok
            { sha := "s1",
              commit :=
                { author :=
                    { name := "an", email := "ae",
                      date := "2020-01-01T00:00:00Z" },
                  committer :=
                    { name := "cn", email := "ce",
                      date := "2021-01-01T00:00:00Z" },
                  message := "m" },
              author := none, committer := none })
          { name := "main", commit := { sha := "s1", url := "cu1" },
            «protected» := false })).createdAt = "2021-01-01T00:00:00Z"
    ∧ "2021-01-01T00:00:00Z" ≠ "2020-01-01T00:00:00Z" := by
  refine ⟨?_, by decide, by decide⟩
  exact getRepositoryBranches_miss_ok
    (fun _ => okPage
      [{ name := "main", commit := { sha := "s1", url := "cu1" },
         «protected» := false }])
    (fun _ => .ok
      { sha := "s1",
        commit :=
          { author :=
              { name := "an", email := "ae",
                date := "2020-01-01T00:00:00Z" },
            committer :=
              { name := "cn", email := "ce",
                date := "2021-01-01T00:00:00Z" },
            message := "m" },
        author := none, committer := none })
    0 1 "o" "r" [] []
    { rateLimit := { remaining := 5000, reset := 0, limit := 5000 },
      calls := 0 }
    { rateLimit := { remaining := 5000, reset := 0, limit := 5000 },
      calls := 1 }
    [{ name := "main", commit := { sha := "s1", url := "cu1" },
       «protected» := false }]
    (by decide) (by decide)

/-- C6 as amended: the date recovered by the per-branch head-commit lookup
is the commit's committer-date, set as both createdAt and updatedAt of the
branch item (or the empty string when the lookup fails); branch items
always have empty author, empty label and assignee lists, and no state,
number or isDraft field. -/
theorem branch_normalization_fields (owner repo : String)
    (lookup : String → Except ReqError GitHubCommit) (b : GitHubBranch) :
    (normalizeBranch owner repo (branchLookup lookup b)).author = ""
    ∧ (normalizeBranch owner repo (branchLookup lookup b)).labels = []
    ∧ (normalizeBranch owner repo (branchLookup lookup b)).assignees = []
    ∧ (normalizeBranch owner repo (branchLookup lookup b)).state = none
    ∧ (normalizeBranch owner repo (branchLookup lookup b)).number = none
    ∧ (normalizeBranch owner repo (branchLookup lookup b)).isDraft = none
    ∧ (normalizeBranch owner repo (branchLookup lookup b)).createdAt =
        (normalizeBranch owner repo (branchLookup lookup b)).updatedAt
    ∧ (∀ c, lookup b.commit.sha = .ok c →
        (normalizeBranch owner repo (branchLookup lookup b)).createdAt =
          c.commit.committer.date)
    ∧ (∀ e, lookup b.commit.sha = .error e →
        (normalizeBranch owner repo (branchLookup lookup b)).createdAt =
          "") := by
  refine ⟨rfl, rfl, rfl, rfl, rfl, rfl, rfl, ?_, ?_⟩
  · intro c hc
    simp [normalizeBranch, branchLookup, hc]
  · intro e he
    simp [normalizeBranch, branchLookup, he]

/-- Closed instance of the amended C6 at a concrete branch and commit. -/
theorem branch_normalization_fields_witness :
    (normalizeBranch "o" "r"
      (branchLookup
        (fun _ => .ok
          { sha := "s9",
            commit :=
              { author :=
                  { name := "an", email := "ae",
                    date := "2020-03-04T00:00:00Z" },
                committer :=
                  { name := "cn", email := "ce",
                    date := "2022-03-04T00:00:00Z" },
                message := "m" },
            author := none, committer := none })
        { name := "dev", commit := { sha := "s9", url := "cu" },
          «protected» := false })).author = ""
    ∧ (normalizeBranch "o" "r"
        (branchLookup
          (fun _ => .ok
            { sha := "s9",
              commit :=
                { author :=
                    { name := "an", email := "ae",
                      date := "2020-03-04T00:00:00Z" },
                  committer :=
                    { name := "cn", email := "ce",
                      date := "2022-03-04T00:00:00Z" },
                  message := "m" },
              author := none, committer := none })
          { name := "dev", commit := { sha := "s9", url := "cu" },
            «protected» := false })).state = none
    ∧ (normalizeBranch "o" "r"
        (branchLookup
          (fun _ => .ok
            { sha := "s9",
              commit :=
                { author :=
                    { name := "an", email := "ae",
                      date := "2020-03-04T00:00:00Z" },
                  committer :=
                    { name := "cn", email := "ce",
                      date := "2022-03-04T00:00:00Z" },
                  message := "m" },
              author := none, committer := none })
          { name := "dev", commit := { sha := "s9", url := "cu" },
            «protected» := false })).createdAt = "2022-03-04T00:00:00Z" := by
  have h := branch_normalization_fields "o" "r"
    (fun _ => .ok
      { sha := "s9",
        commit :=
          { author :=
              { name := "an", email := "ae",
                date := "2020-03-04T00:00:00Z" },
            committer :=
              { name := "cn", email := "ce",
                date := "2022-03-04T00:00:00Z" },
            message := "m" },
        author := none, committer := none })
    { name := "dev", commit := { sha := "s9", url := "cu" },
      «protected» := false }
  exact ⟨h.1, h.2.2.2.1,
    h.2.2.2.2.2.2.2.1
      { sha := "s9",
        commit :=
          { author :=
              { name := "an", email := "ae",
                date := "2020-03-04T00:00:00Z" },
            committer :=
              { name := "cn", email := "ce",
                date := "2022-03-04T00:00:00Z" },
            message := "m" },
        author := none, committer := none } rfl⟩

lemma cache_get_none_find {T : Type} (now : Int) (store : CacheStore T)
    (key : String) (store2 : CacheStore T)
    (h : Cache.get now store key = (none, store2)) :
    storeFind store2 key = none := by
  unfold Cache.get at h
  split at h
  next hfind =>
    have h2 : store = store2 := congrArg Prod.snd h
    rw [← h2]
    exact hfind
  next entry hfind =>
    split at h
    · have h2 : storeErase store key = store2 := congrArg Prod.snd h
      rw [← h2]
      exact storeFind_erase_self store key
    · exact absurd (congrArg Prod.fst h) (by simp)

lemma getRepositoryIssues_error_store
    (net : String → HttpResponse (List GitHubIssue)) (now : Int) (fuel : Nat)
    (owner repo : String) (store : CacheStore (List NormalizedItem))
    (s : ReqState) (e : ReqError)
    (store3 : CacheStore (List NormalizedItem)) (s3 : ReqState)
    (hres : getRepositoryIssues net now fuel owner repo store s =
      some (.error e, store3, s3)) :
    store3 = (Cache.get now store ("issues:" ++ owner ++ "/" ++ repo)).2
    ∧ storeFind store3 ("issues:" ++ owner ++ "/" ++ repo) = none := by
  unfold getRepositoryIssues at hres
  dsimp only at hres
  rcases hcg : Cache.get now store ("issues:" ++ owner ++ "/" ++ repo) with
    ⟨v, st2⟩
  rw [hcg] at hres
  cases v with
  | some cached =>
    dsimp only at hres
    simp at hres
  | none =>
    dsimp only at hres
    rcases hf : fetchAllPages net now
        ("/repos/" ++ owner ++ "/" ++ repo ++ "/issues?state=all") fuel s
      with _ | ⟨res, s4⟩
    · rw [hf] at hres
      dsimp only at hres
      simp at hres
    · rw [hf] at hres
      cases res with
      | error e2 =>
        dsimp only at hres
        simp only [Option.some.injEq, Prod.mk.injEq, Except.error.injEq]
          at hres
        obtain ⟨-, hst, -⟩ := hres
        rw [← hst]
        exact ⟨rfl, cache_get_none_find now store _ st2 hcg⟩
      | ok data =>
        dsimp only at hres
        simp at hres

lemma getOrganizationRepos_error_store
    (net : String → HttpResponse (List GitHubRepository)) (now : Int)
    (fuel : Nat) (org : String) (store : CacheStore (List Repository))
    (s : ReqState) (e : ReqError) (store3 : CacheStore (List Repository))
    (s3 : ReqState)
    (hres : getOrganizationRepos net now fuel org store s =
      some (.error e, store3, s3)) :
    store3 = (Cache.get now store ("repos:" ++ org)).2
    ∧ storeFind store3 ("repos:" ++ org) = none := by
  unfold getOrganizationRepos at hres
  dsimp only at hres
  rcases hcg : Cache.get now store ("repos:" ++ org) with ⟨v, st2⟩
  rw [hcg] at hres
  cases v with
  | some cached =>
    dsimp only at hres
    simp at hres
  | none =>
    dsimp only at hres
    rcases hf : fetchAllPages net now ("/orgs/" ++ org ++ "/repos") fuel s
      with _ | ⟨res, s4⟩
    · rw [hf] at hres
      dsimp only at hres
      simp at hres
    · rw [hf] at hres
      cases res with
      | error e2 =>
        dsimp only at hres
        simp only [Option.some.injEq, Prod.mk.injEq, Except.error.injEq]
          at hres
        obtain ⟨-, hst, -⟩ := hres
        rw [← hst]
        exact ⟨rfl, cache_get_none_find now store _ st2 hcg⟩
      | ok data =>
        dsimp only at hres
        simp at hres

lemma getRepositoryPulls_error_store
    (net : String → HttpResponse (List GitHubPullRequest)) (now : Int)
    (fuel : Nat) (owner repo : String)
    (store : CacheStore (List NormalizedItem)) (s : ReqState) (e : ReqError)
    (store3 : CacheStore (List NormalizedItem)) (s3 : ReqState)
    (hres : getRepositoryPulls net now fuel owner repo store s =
      some (.error e, store3, s3)) :
    store3 = (Cache.get now store ("pulls:" ++ owner ++ "/" ++ repo)).2
    ∧ storeFind store3 ("pulls:" ++ owner ++ "/" ++ repo) = none := by
  unfold getRepositoryPulls at hres
  dsimp only at hres
  rcases hcg : Cache.get now store ("pulls:" ++ owner ++ "/" ++ repo) with
    ⟨v, st2⟩
  rw [hcg] at hres
  cases v with
  | some cached =>
    dsimp only at hres
    simp at hres
  | none =>
    dsimp only at hres
    rcases hf : fetchAllPages net now
        ("/repos/" ++ owner ++ "/" ++ repo ++ "/pulls?state=all") fuel s
      with _ | ⟨res, s4⟩
    · rw [hf] at hres
      dsimp only at hres
      simp at hres
    · rw [hf] at hres
      cases res with
      | error e2 =>
        dsimp only at hres
        simp only [Option.some.injEq, Prod.mk.injEq, Except.error.injEq]
          at hres
        obtain ⟨-, hst, -⟩ := hres
        rw [← hst]
        exact ⟨rfl, cache_get_none_find now store _ st2 hcg⟩
      | ok data =>
        dsimp only at hres
        simp at hres

lemma getRepositoryBranches_error_store
    (net : String → HttpResponse (List GitHubBranch))
    (lookup : String → Except ReqError GitHubCommit) (now : Int)
    (fuel : Nat) (owner repo : String)
    (store : CacheStore (List NormalizedItem)) (s : ReqState) (e : ReqError)
    (store3 : CacheStore (List NormalizedItem)) (s3 : ReqState)
    (hres : getRepositoryBranches net lookup now fuel owner repo store s =
      some (.error e, store3, s3)) :
    store3 = (Cache.get now store ("branches:" ++ owner ++ "/" ++ repo)).2
    ∧ storeFind store3 ("branches:" ++ owner ++ "/" ++ repo) = none := by
  unfold getRepositoryBranches at hres
  dsimp only at hres
  rcases hcg : Cache.get now store ("branches:" ++ owner ++ "/" ++ repo) with
    ⟨v, st2⟩
  rw [hcg] at hres
  cases v with
  | some cached =>
    dsimp only at hres
    simp at hres
  | none =>
    dsimp only at hres
    rcases hf : fetchAllPages net now
        ("/repos/" ++ owner ++ "/" ++ repo ++ "/branches") fuel s
      with _ | ⟨res, s4⟩
    · rw [hf] at hres
      dsimp only at hres
      simp at hres
    · rw [hf] at hres
      cases res with
      | error e2 =>
        dsimp only at hres
        simp only [Option.some.injEq, Prod.mk.injEq, Except.error.injEq]
          at hres
        obtain ⟨-, hst, -⟩ := hres
        rw [← hst]
        exact ⟨rfl, cache_get_none_find now store _ st2 hcg⟩
      | ok data =>
        dsimp only at hres
        simp at hres

/-- C10: whenever a normalizer call (getOrganizationRepos,
getRepositoryIssues, getRepositoryPulls, getRepositoryBranches) returns an
error — from the rate-limit gate, an upstream error, a decode error or a
pagination failure, all of which surface as an error result — the cache it
returns is exactly the store left by the initial cache lookup (which can
only have lazily dropped an already-expired entry for the requested key)
and holds no entry for the requested key: the entry is written only after
the whole fetch-and-normalize pipeline succeeds. -/
theorem failure_leaves_cache_unchanged :
    (∀ (net : String → HttpResponse (List GitHubRepository)) (now : Int)
      (fuel : Nat) (org : String) (store : CacheStore (List Repository))
      (s : ReqState) (e : ReqError) (store3 : CacheStore (List Repository))
      (s3 : ReqState),
      getOrganizationRepos net now fuel org store s =
        some (.error e, store3, s3) →
      store3 = (Cache.get now store ("repos:" ++ org)).2
      ∧ storeFind store3 ("repos:" ++ org) = none)
    ∧ (∀ (net : String → HttpResponse (List GitHubIssue)) (now : Int)
      (fuel : Nat) (owner repo : String)
      (store : CacheStore (List NormalizedItem)) (s : ReqState)
      (e : ReqError) (store3 : CacheStore (List NormalizedItem))
      (s3 : ReqState),
      getRepositoryIssues net now fuel owner repo store s =
        some (.error e, store3, s3) →
      store3 = (Cache.get now store ("issues:" ++ owner ++ "/" ++ repo)).2
      ∧ storeFind store3 ("issues:" ++ owner ++ "/" ++ repo) = none)
    ∧ (∀ (net : String → HttpResponse (List GitHubPullRequest)) (now : Int)
      (fuel : Nat) (owner repo : String)
      (store : CacheStore (List NormalizedItem)) (s : ReqState)
      (e : ReqError) (store3 : CacheStore (List NormalizedItem))
      (s3 : ReqState),
      getRepositoryPulls net now fuel owner repo store s =
        some (.error e, store3, s3) →
      store3 = (Cache.get now store ("pulls:" ++ owner ++ "/" ++ repo)).2
      ∧ storeFind store3 ("pulls:" ++ owner ++ "/" ++ repo) = none)
    ∧ (∀ (net : String → HttpResponse (List GitHubBranch))
      (lookup : String → Except ReqError GitHubCommit) (now : Int)
      (fuel : Nat) (owner repo : String)
      (store : CacheStore (List NormalizedItem)) (s : ReqState)
      (e : ReqError) (store3 : CacheStore (List NormalizedItem))
      (s3 : ReqState),
      getRepositoryBranches net lookup now fuel owner repo store s =
        some (.error e, store3, s3) →
      store3 = (Cache.get now store ("branches:" ++ owner ++ "/" ++ repo)).2
      ∧ storeFind store3 ("branches:" ++ owner ++ "/" ++ repo) = none) :=
  ⟨fun net now fuel org store s e store3 s3 hres =>
    getOrganizationRepos_error_store net now fuel org store s e store3 s3
      hres,
   fun net now fuel owner repo store s e store3 s3 hres =>
    getRepositoryIssues_error_store net now fuel owner repo store s e store3
      s3 hres,
   fun net now fuel owner repo store s e store3 s3 hres =>
    getRepositoryPulls_error_store net now fuel owner repo store s e store3
      s3 hres,
   fun net lookup now fuel owner repo store s e store3 s3 hres =>
    getRepositoryBranches_error_store net lookup now fuel owner repo store s
      e store3 s3 hres⟩

/-- Closed instance of C10: a 500 upstream response makes each of the four
normalizer calls fail, and each leaves an empty cache with no entry for
its requested key. -/
theorem failure_leaves_cache_unchanged_witness :
    (([] : CacheStore (List Repository)) =
        (Cache.get 0 ([] : CacheStore (List Repository))
          ("repos:" ++ "o")).2
      ∧ storeFind ([] : CacheStore (List Repository)) ("repos:" ++ "o") =
          none)
    ∧ (([] : CacheStore (List NormalizedItem)) =
        (Cache.get 0 ([] : CacheStore (List NormalizedItem))
          ("issues:" ++ "o" ++ "/" ++ "r")).2
      ∧ storeFind ([] : CacheStore (List NormalizedItem))
          ("issues:" ++ "o" ++ "/" ++ "r") = none)
    ∧ (([] : CacheStore (List NormalizedItem)) =
        (Cache.get 0 ([] : CacheStore (List NormalizedItem))
          ("pulls:" ++ "o" ++ "/" ++ "r")).2
      ∧ storeFind ([] : CacheStore (List NormalizedItem))
          ("pulls:" ++ "o" ++ "/" ++ "r") = none)
    ∧ (([] : CacheStore (List NormalizedItem)) =
        (Cache.get 0 ([] : CacheStore (List NormalizedItem))
          ("branches:" ++ "o" ++ "/" ++ "r")).2
      ∧ storeFind ([] : CacheStore (List NormalizedItem))
          ("branches:" ++ "o" ++ "/" ++ "r") = none) :=
  ⟨failure_leaves_cache_unchanged.1
      (fun _ =>
        { ok := false, statusMsg := "500 Oops", errorMessage := none,
          hdrRemaining := none, hdrReset := none, hdrLimit := none,
          body := none })
      0 1 "o" []
      { rateLimit := { remaining := 5000, reset := 0, limit := 5000 },
        calls := 0 }
      (.upstream ("GitHub API error: " ++ "500 Oops")) []
      { rateLimit := { remaining := 5000, reset := 0, limit := 5000 },
        calls := 1 }
      (by decide),
   failure_leaves_cache_unchanged.2.1
      (fun _ =>
        { ok := false, statusMsg := "500 Oops", errorMessage := none,
          hdrRemaining := none, hdrReset := none, hdrLimit := none,
          body := none })
      0 1 "o" "r" []
      { rateLimit := { remaining := 5000, reset := 0, limit := 5000 },
        calls := 0 }
      (.upstream ("GitHub API error: " ++ "500 Oops")) []
      { rateLimit := { remaining := 5000, reset := 0, limit := 5000 },
        calls := 1 }
      (by decide),
   failure_leaves_cache_unchanged.2.2.1
      (fun _ =>
        { ok := false, statusMsg := "500 Oops", errorMessage := none,
          hdrRemaining := none, hdrReset := none, hdrLimit := none,
          body := none })
      0 1 "o" "r" []
      { rateLimit := { remaining := 5000, reset := 0, limit := 5000 },
        calls := 0 }
      (.upstream ("GitHub API error: " ++ "500 Oops")) []
      { rateLimit := { remaining := 5000, reset := 0, limit := 5000 },
        calls := 1 }
      (by decide),
   failure_leaves_cache_unchanged.2.2.2
      (fun _ =>
        { ok := false, statusMsg := "500 Oops", errorMessage := none,
          hdrRemaining := none, hdrReset := none, hdrLimit := none,
          body := none })
      (fun _ => .error .decode)
      0 1 "o" "r" []
      { rateLimit := { remaining := 5000, reset := 0, limit := 5000 },
        calls := 0 }
      (.upstream ("GitHub API error: " ++ "500 Oops")) []
      { rateLimit := { remaining := 5000, reset := 0, limit := 5000 },
        calls := 1 }
      (by decide)⟩

lemma decimalDigits_ne_nil (n : Nat) : decimalDigits n ≠ [] := by
  unfold decimalDigits
  split
  · simp
  · simp

lemma digitChar_inj_lt :
    ∀ a, a < 10 → ∀ b, b < 10 → Nat.digitChar a = Nat.digitChar b →
      a = b := by decide

lemma digitChar_ne_dash : ∀ a, a < 10 → Nat.digitChar a ≠ '-' := by decide

lemma decimalDigits_head (n : Nat) :
    ∃ k, k < 10 ∧ ∃ t, decimalDigits n = Nat.digitChar k :: t := by
  induction n using Nat.strong_induction_on with
  | _ n ih =>
    by_cases h : n < 10
    · refine ⟨n, h, [], ?_⟩
      unfold decimalDigits
      rw [dif_pos h]
    · obtain ⟨k, hk, t, ht⟩ :=
        ih (n / 10) (Nat.div_lt_self (by omega) (by omega))
      refine ⟨k, hk, t ++ [Nat.digitChar (n % 10)], ?_⟩
      unfold decimalDigits
      rw [dif_neg h, ht]
      rfl

lemma decimalDigits_inj :
    ∀ a b : Nat, decimalDigits a = decimalDigits b → a = b := by
  intro a
  induction a using Nat.strong_induction_on with
  | _ a ih =>
    intro b h
    by_cases ha : a < 10 <;> by_cases hb : b < 10
    · unfold decimalDigits at h
      rw [dif_pos ha, dif_pos hb] at h
      exact digitChar_inj_lt a ha b hb (List.cons.injEq .. ▸ h).1
    · exfalso
      unfold decimalDigits at h
      rw [dif_pos ha, dif_neg hb] at h
      have hpos : 0 < (decimalDigits (b / 10)).length :=
        List.length_pos.mpr (decimalDigits_ne_nil (b / 10))
      have hlen : (1 : Nat) = (decimalDigits (b / 10)).length + 1 := by
        have hl := congrArg List.length h
        simpa [List.length_append] using hl
      omega
    · exfalso
      unfold decimalDigits at h
      rw [dif_neg ha, dif_pos hb] at h
      have hpos : 0 < (decimalDigits (a / 10)).length :=
        List.length_pos.mpr (decimalDigits_ne_nil (a / 10))
      have hlen : (decimalDigits (a / 10)).length + 1 = (1 : Nat) := by
        have hl := congrArg List.length h
        simpa [List.length_append] using hl
      omega
    · unfold decimalDigits at h
      rw [dif_neg ha, dif_neg hb] at h
      obtain ⟨h1, h2⟩ := List.append_inj' h (by simp)
      have hd : a / 10 = b / 10 :=
        ih (a / 10) (Nat.div_lt_self (by omega) (by omega)) (b / 10) h1
      have hm : a % 10 = b % 10 :=
        digitChar_inj_lt (a % 10) (Nat.mod_lt a (by omega)) (b % 10)
          (Nat.mod_lt b (by omega)) (List.cons.injEq .. ▸ h2).1
      have hda := Nat.div_add_mod a 10
      have hdb := Nat.div_add_mod b 10
      omega

lemma toDigitsCore_eq_decimalDigits :
    ∀ n fuel (ds : List Char), n + 1 ≤ fuel →
      Nat.toDigitsCore 10 fuel n ds = decimalDigits n ++ ds := by
  intro n
  induction n using Nat.strong_induction_on with
  | _ n ih =>
    intro fuel ds hfuel
    obtain ⟨f, rfl⟩ : ∃ f, fuel = f + 1 := ⟨fuel - 1, by omega⟩
    have hmod : n % 10 < 10 := Nat.mod_lt n (by omega)
    have hdm := Nat.div_add_mod n 10
    rw [show Nat.toDigitsCore 10 (f + 1) n ds =
        (if n / 10 = 0 then Nat.digitChar (n % 10) :: ds
         else Nat.toDigitsCore 10 f (n / 10) (Nat.digitChar (n % 10) :: ds))
      from rfl]
    by_cases h0 : n / 10 = 0
    · rw [if_pos h0]
      have hn : n < 10 := by omega
      unfold decimalDigits
      rw [dif_pos hn, Nat.mod_eq_of_lt hn]
      rfl
    · rw [if_neg h0]
      have hn : ¬ n < 10 := by omega
      rw [ih (n / 10) (Nat.div_lt_self (by omega) (by omega)) f
        (Nat.digitChar (n % 10) :: ds) (by omega)]
      conv_rhs => unfold decimalDigits
      rw [dif_neg hn]
      simp [List.append_assoc]

lemma natRepr_eq_decimalDigits (n : Nat) :
    Nat.repr n = (decimalDigits n).asString := by
  unfold Nat.repr Nat.toDigits
  rw [toDigitsCore_eq_decimalDigits n (n + 1) [] (le_refl _)]
  simp [List.asString]

lemma strData_inj (x y : String) (h : x.data = y.data) : x = y := by
  cases x
  cases y
  exact congrArg String.mk h

lemma natRepr_inj (a b : Nat) (h : Nat.repr a = Nat.repr b) : a = b := by
  rw [natRepr_eq_decimalDigits, natRepr_eq_decimalDigits] at h
  exact decimalDigits_inj a b (congrArg String.data h)

lemma natRepr_ne_dash_append (n : Nat) (s : String) :
    Nat.repr n ≠ "-" ++ s := by
  intro h
  rw [natRepr_eq_decimalDigits] at h
  have hdata := congrArg String.data h
  have hdash : ("-" ++ s).data = '-' :: s.data := by
    rw [String.data_append]
    rfl
  rw [hdash] at hdata
  obtain ⟨k, hk, t, ht⟩ := decimalDigits_head n
  have : (decimalDigits n).asString.data = decimalDigits n := rfl
  rw [this, ht] at hdata
  exact digitChar_ne_dash k hk (List.cons.injEq .. ▸ hdata).1

lemma strAppend_left_cancel (p x y : String) (h : p ++ x = p ++ y) :
    x = y := by
  apply strData_inj
  have hd := congrArg String.data h
  rw [String.data_append, String.data_append] at hd
  exact List.append_cancel_left hd

lemma intRepr_inj (a b : Int) (h : Int.repr a = Int.repr b) : a = b := by
  cases a with
  | ofNat m =>
    cases b with
    | ofNat m2 =>
      exact congrArg Int.ofNat (natRepr_inj m m2 h)
    | negSucc m2 =>
      exact absurd h (natRepr_ne_dash_append m (Nat.repr (m2 + 1)))
  | negSucc m =>
    cases b with
    | ofNat m2 =>
      exact absurd h.symm (natRepr_ne_dash_append m2 (Nat.repr (m + 1)))
    | negSucc m2 =>
      have h2 : Nat.repr (m + 1) = Nat.repr (m2 + 1) :=
        strAppend_left_cancel "-" _ _ h
      have h3 := natRepr_inj (m + 1) (m2 + 1) h2
      have hm : m = m2 := by omega
      rw [hm]

lemma normalizeIssue_id_core (owner repo : String) (i1 i2 : GitHubIssue)
    (h : (normalizeIssue owner repo i1).id =
      (normalizeIssue owner repo i2).id) : i1.id = i2.id := by
  have h2 : ("issue-" ++ owner ++ "-" ++ repo ++ "-") ++ toString i1.id =
      ("issue-" ++ owner ++ "-" ++ repo ++ "-") ++ toString i2.id := h
  exact intRepr_inj i1.id i2.id
    (strAppend_left_cancel ("issue-" ++ owner ++ "-" ++ repo ++ "-") _ _ h2)

lemma normalizePull_id_core (owner repo : String)
    (p1 p2 : GitHubPullRequest)
    (h : (normalizePull owner repo p1).id =
      (normalizePull owner repo p2).id) : p1.id = p2.id := by
  have h2 : ("pr-" ++ owner ++ "-" ++ repo ++ "-") ++ toString p1.id =
      ("pr-" ++ owner ++ "-" ++ repo ++ "-") ++ toString p2.id := h
  exact intRepr_inj p1.id p2.id
    (strAppend_left_cancel ("pr-" ++ owner ++ "-" ++ repo ++ "-") _ _ h2)

lemma normalizeBranch_id_core (owner repo : String)
    (b1 b2 : GitHubBranch × Option GitHubCommit)
    (h : (normalizeBranch owner repo b1).id =
      (normalizeBranch owner repo b2).id) : b1.1.name = b2.1.name := by
  have h2 : ("branch-" ++ owner ++ "-" ++ repo ++ "-") ++ b1.1.name =
      ("branch-" ++ owner ++ "-" ++ repo ++ "-") ++ b2.1.name := h
  exact strAppend_left_cancel ("branch-" ++ owner ++ "-" ++ repo ++ "-")
    _ _ h2

/-- C9: every NormalizedItem id is built as
`kind-owner-repo-(upstream id or branch name)`; with a fixed owner and
repo, distinct upstream ids (for issues and pull requests) and distinct
branch names give distinct item ids, so ids are unique within a fetch
result whose upstream ids/names are pairwise distinct; and the id depends
only on the upstream id/name, so repeating the same fetch for the same
upstream entity yields the same id. -/
theorem normalized_id_spec :
    (∀ (owner repo : String) (i : GitHubIssue),
      (normalizeIssue owner repo i).id =
        "issue-" ++ owner ++ "-" ++ repo ++ "-" ++ toString i.id)
    ∧ (∀ (owner repo : String) (pr : GitHubPullRequest),
      (normalizePull owner repo pr).id =
        "pr-" ++ owner ++ "-" ++ repo ++ "-" ++ toString pr.id)
    ∧ (∀ (owner repo : String) (bc : GitHubBranch × Option GitHubCommit),
      (normalizeBranch owner repo bc).id =
        "branch-" ++ owner ++ "-" ++ repo ++ "-" ++ bc.1.name)
    ∧ (∀ (owner repo : String) (i1 i2 : GitHubIssue), i1.id ≠ i2.id →
      (normalizeIssue owner repo i1).id ≠ (normalizeIssue owner repo i2).id)
    ∧ (∀ (owner repo : String) (p1 p2 : GitHubPullRequest), p1.id ≠ p2.id →
      (normalizePull owner repo p1).id ≠ (normalizePull owner repo p2).id)
    ∧ (∀ (owner repo : String) (b1 b2 : GitHubBranch × Option GitHubCommit),
      b1.1.name ≠ b2.1.name →
      (normalizeBranch owner repo b1).id ≠
        (normalizeBranch owner repo b2).id)
    ∧ (∀ (owner repo : String) (issues : List GitHubIssue),
      issues.Pairwise (fun x y => x.id ≠ y.id) →
      (issues.map (normalizeIssue owner repo)).Pairwise
        (fun x y => x.id ≠ y.id))
    ∧ (∀ (owner repo : String) (pulls : List GitHubPullRequest),
      pulls.Pairwise (fun x y => x.id ≠ y.id) →
      (pulls.map (normalizePull owner repo)).Pairwise
        (fun x y => x.id ≠ y.id))
    ∧ (∀ (owner repo : String)
      (bcs : List (GitHubBranch × Option GitHubCommit)),
      bcs.Pairwise (fun x y => x.1.name ≠ y.1.name) →
      (bcs.map (normalizeBranch owner repo)).Pairwise
        (fun x y => x.id ≠ y.id))
    ∧ (∀ (owner repo : String) (i1 i2 : GitHubIssue), i1.id = i2.id →
      (normalizeIssue owner repo i1).id = (normalizeIssue owner repo i2).id)
    ∧ (∀ (owner repo : String) (p1 p2 : GitHubPullRequest), p1.id = p2.id →
      (normalizePull owner repo p1).id = (normalizePull owner repo p2).id)
    ∧ (∀ (owner repo : String) (b1 b2 : GitHubBranch × Option GitHubCommit),
      b1.1.name = b2.1.name →
      (normalizeBranch owner repo b1).id =
        (normalizeBranch owner repo b2).id) := by
  refine ⟨fun _ _ _ => rfl, fun _ _ _ => rfl, fun _ _ _ => rfl,
    ?_, ?_, ?_, ?_, ?_, ?_, ?_, ?_, ?_⟩
  · exact fun owner repo i1 i2 hne h =>
      hne (normalizeIssue_id_core owner repo i1 i2 h)
  · exact fun owner repo p1 p2 hne h =>
      hne (normalizePull_id_core owner repo p1 p2 h)
  · exact fun owner repo b1 b2 hne h =>
      hne (normalizeBranch_id_core owner repo b1 b2 h)
  · intro owner repo issues hpw
    rw [List.pairwise_map]
    exact hpw.imp
      (fun hne h => hne (normalizeIssue_id_core owner repo _ _ h))
  · intro owner repo pulls hpw
    rw [List.pairwise_map]
    exact hpw.imp
      (fun hne h => hne (normalizePull_id_core owner repo _ _ h))
  · intro owner repo bcs hpw
    rw [List.pairwise_map]
    exact hpw.imp
      (fun hne h => hne (normalizeBranch_id_core owner repo _ _ h))
  · intro owner repo i1 i2 hid
    show ("issue-" ++ owner ++ "-" ++ repo ++ "-") ++ toString i1.id =
      ("issue-" ++ owner ++ "-" ++ repo ++ "-") ++ toString i2.id
    rw [hid]
  · intro owner repo p1 p2 hid
    show ("pr-" ++ owner ++ "-" ++ repo ++ "-") ++ toString p1.id =
      ("pr-" ++ owner ++ "-" ++ repo ++ "-") ++ toString p2.id
    rw [hid]
  · intro owner repo b1 b2 hname
    show ("branch-" ++ owner ++ "-" ++ repo ++ "-") ++ b1.1.name =
      ("branch-" ++ owner ++ "-" ++ repo ++ "-") ++ b2.1.name
    rw [hname]

/-- Closed instance of C9: a concrete id has the documented shape, and
distinct upstream ids / branch names give distinct item ids. -/
theorem normalized_id_spec_witness :
    (normalizeIssue "o" "r"
      { id := 1, number := 1, title := "A", html_url := "u1",
        state := "open", created_at := "c", updated_at := "u",
        user := none, labels := [], assignees := [],
        pull_request := false }).id =
      "issue-" ++ "o" ++ "-" ++ "r" ++ "-" ++ toString (1 : Int)
    ∧ (normalizeIssue "o" "r"
        { id := 1, number := 1, title := "A", html_url := "u1",
          state := "open", created_at := "c", updated_at := "u",
          user := none, labels := [], assignees := [],
          pull_request := false }).id ≠
      (normalizeIssue "o" "r"
        { id := 2, number := 1, title := "A", html_url := "u1",
          state := "open", created_at := "c", updated_at := "u",
          user := none, labels := [], assignees := [],
          pull_request := false }).id
    ∧ (normalizeBranch "o" "r"
        ({ name := "b1", commit := { sha := "s1", url := "cu1" },
           «protected» := false }, none)).id ≠
      (normalizeBranch "o" "r"
        ({ name := "b2", commit := { sha := "s2", url := "cu2" },
           «protected» := false }, none)).id :=
  ⟨normalized_id_spec.1 "o" "r"
      { id := 1, number := 1, title := "A", html_url := "u1",
        state := "open", created_at := "c", updated_at := "u",
        user := none, labels := [], assignees := [],
        pull_request := false },
   normalized_id_spec.2.2.2.1 "o" "r"
      { id := 1, number := 1, title := "A", html_url := "u1",
        state := "open", created_at := "c", updated_at := "u",
        user := none, labels := [], assignees := [],
        pull_request := false }
      { id := 2, number := 1, title := "A", html_url := "u1",
        state := "open", created_at := "c", updated_at := "u",
        user := none, labels := [], assignees := [],
        pull_request := false }
      (by decide),
   normalized_id_spec.2.2.2.2.2.1 "o" "r"
      ({ name := "b1", commit := { sha := "s1", url := "cu1" },
         «protected» := false }, none)
      ({ name := "b2", commit := { sha := "s2", url := "cu2" },
         «protected» := false }, none)
      (by decide)⟩
